import Mathlib

/-!
# Shallow embedding of the offscreen OpenGL rasterization core

This file embeds, in Lean 4, the C++ sources of the repository's offscreen
rasterization subsystem:

* `egl_offscreen_context.cc` — `EGLOffscreenContext` (make-current / release /
  destruction of an EGL context);
* `gl_utils.cc` / `gl_utils.h` — `gl_utils::Program` (shader compilation,
  program creation, resource introspection), `gl_utils::RenderTargets<T>`
  (framebuffer + renderbuffers, pixel readback), `gl_utils::ShaderStorageBuffer`;
* `rasterizer.h` — `Rasterizer<T>` (render pass driver, uniform and storage
  buffer setters);
* `rasterizer_with_context.h` — `RasterizerWithContext<T>`.

The GL/EGL driver is external to the repository; it is modelled by explicit
environment records of oracles (whether `glGetError` fires after the n-th GL
call of an operation, shader-compilation status per source string, program
introspection tables, the framebuffer effect of a draw call, readback format
conversion).  Where the model fixes a fact about the driver rather than about
the repository code, the fact is standard, documented GL behaviour and is noted
in a doc comment (for instance: `glDeleteFramebuffers` silently ignores names
that are not framebuffer objects; a link failure of `glLinkProgram` is reported
through `GL_LINK_STATUS` and does not raise a `glGetError` error; drawing zero
vertices writes nothing).

Machine integers only matter at one place (`GL_INVALID_INDEX` compared against
a signed `GLint`), modelled with an explicit `% 2^32`.
-/

/-- Result type of fallible operations, mirroring `tensorflow::Status` as used
by this code base: either OK, or `tensorflow::errors::InvalidArgument`
carrying a message (the `INVALID_ARGUMENT` macro of `macros.h`). -/
inductive TfStatus where
  | ok : TfStatus
  | invalidArgument (msg : String) : TfStatus
deriving DecidableEq, Repr

/-- The error produced by the `RETURN_IF_GL_ERROR` / `RETURN_IF_EGL_ERROR`
macros of `macros.h` (the hex error code is abstracted away). -/
def glErrorStatus : TfStatus := .invalidArgument "GL ERROR"

namespace GLConst

/-- `EGL_NO_CONTEXT` is the null context handle. -/
def EGL_NO_CONTEXT : Nat := 0

/-- `GL_INVALID_INDEX` (`0xFFFFFFFF`), returned by
`glGetProgramResourceIndex` when no active resource has the queried name. -/
def GL_INVALID_INDEX : Nat := 4294967295

def GL_UNIFORM : Nat := 0x92E1
def GL_SHADER_STORAGE_BLOCK : Nat := 0x92E6
def GL_TYPE : Nat := 0x92FA
def GL_LOCATION : Nat := 0x930E
def GL_BUFFER_BINDING : Nat := 0x9302
def GL_VERTEX_SHADER : Nat := 0x8B31
def GL_GEOMETRY_SHADER : Nat := 0x8DD9
def GL_FRAGMENT_SHADER : Nat := 0x8B30
def GL_FLOAT_MAT2 : Nat := 0x8B5A
def GL_FLOAT_MAT3 : Nat := 0x8B5B
def GL_FLOAT_MAT4 : Nat := 0x8B5C
def GL_FLOAT_MAT2x3 : Nat := 0x8B65
def GL_FLOAT_MAT2x4 : Nat := 0x8B66
def GL_FLOAT_MAT3x2 : Nat := 0x8B67
def GL_FLOAT_MAT3x4 : Nat := 0x8B68
def GL_FLOAT_MAT4x2 : Nat := 0x8B69
def GL_FLOAT_MAT4x3 : Nat := 0x8B6A
def GL_RGBA8 : Nat := 0x8058
def GL_RGBA32F : Nat := 0x8814
def GL_DEPTH_COMPONENT24 : Nat := 0x81A6
def GL_BLEND : Nat := 0x0BE2
def GL_DEPTH_TEST : Nat := 0x0B71
def GL_CULL_FACE : Nat := 0x0B44
def GL_POINTS : Nat := 0x0000
def GL_COLOR_BUFFER_BIT : Nat := 0x4000
def GL_DEPTH_BUFFER_BIT : Nat := 0x0100

end GLConst

open GLConst

/-! ## EGL context model (`egl_offscreen_context.cc`)

EGL context handles are natural numbers; `0` plays the role of
`EGL_NO_CONTEXT`.  The only per-thread EGL state visible to this code is which
context is current on the calling thread (`eglGetCurrentContext`). -/

/-- The data of an `EGLOffscreenContext`: `{context_, display_,
pixel_buffer_surface_}`. -/
structure EGLOffscreenContext where
  context : Nat
  display : Nat
  surface : Nat
deriving DecidableEq, Repr

/-- Per-thread EGL state: the handle of the context current on the calling
thread (`EGL_NO_CONTEXT` when none is current). -/
structure EGLThreadState where
  current : Nat
deriving DecidableEq, Repr

/-- Driver oracles for the EGL layer.  `makeCurrentOk c` tells whether the
`eglMakeCurrent` call targeting context handle `c` (with `c = EGL_NO_CONTEXT`
for the unbinding call) completes without `eglGetError` reporting an error.
The remaining fields are the teardown calls of `~EGLOffscreenContext`. -/
structure EGLEnv where
  makeCurrentOk : Nat → Bool
  destroyContextOk : Bool
  destroySurfaceOk : Bool
  terminateDisplayOk : Bool

/-- One `eglMakeCurrent(display, surface, surface, ctx)` call guarded by
`RETURN_IF_EGL_ERROR`: on success the thread's current context becomes `ctx`;
on an EGL error the binding is unchanged. -/
def eglMakeCurrent (env : EGLEnv) (ctx : Nat) (st : EGLThreadState) :
    TfStatus × EGLThreadState :=
  if env.makeCurrentOk ctx then (.ok, ⟨ctx⟩) else (glErrorStatus, st)

/-- `EGLOffscreenContext::MakeCurrent`: binds this context's surface for read
and draw and makes the context current on the calling thread. -/
def EGLOffscreenContext.MakeCurrent (env : EGLEnv) (c : EGLOffscreenContext)
    (st : EGLThreadState) : TfStatus × EGLThreadState :=
  eglMakeCurrent env c.context st

/-- `EGLOffscreenContext::Release`: if this context is current on the calling
thread, unbind it with `eglMakeCurrent(display_, EGL_NO_SURFACE,
EGL_NO_SURFACE, EGL_NO_CONTEXT)`; otherwise fall through and return OK.
The boolean in the result records whether the unbinding `eglMakeCurrent`
call was issued. -/
def EGLOffscreenContext.Release (env : EGLEnv) (c : EGLOffscreenContext)
    (st : EGLThreadState) : TfStatus × Bool × EGLThreadState :=
  if c.context ≠ EGL_NO_CONTEXT ∧ c.context = st.current then
    let (s, st') := eglMakeCurrent env EGL_NO_CONTEXT st
    (s, true, st')
  else
    (.ok, false, st)

/-- Outcome of a destructor run: the resulting thread state, whether the
process was aborted (`exit(-1)`), the `std::cerr` log lines emitted, and the
GPU object handles whose deletion calls were issued by `Rasterizer::Reset`
during `~RasterizerWithContext` (empty for `~EGLOffscreenContext` alone). -/
structure DtorOutcome where
  est : EGLThreadState
  aborted : Bool
  logs : List String
  resetDeleted : List Nat
deriving DecidableEq, Repr

/-- `EGLOffscreenContext::~EGLOffscreenContext`: `Release()`, then
`eglDestroyContext`, `eglDestroySurface`, `TerminateInitializedEGLDisplay`,
in that order; each failing step logs to `std::cerr` and calls `exit(-1)`
(modelled by `aborted := true`, stopping the sequence). -/
def EGLOffscreenContext.destroy (env : EGLEnv) (c : EGLOffscreenContext)
    (st : EGLThreadState) : DtorOutcome :=
  let (s, _, st) := c.Release env st
  if s ≠ .ok then
    ⟨st, true,
     ["EGLOffscreenContext::~EGLOffscreenContext: an error occured in Release."],
     []⟩
  else if !env.destroyContextOk then
    ⟨st, true,
     ["EGLOffscreenContext::~EGLOffscreenContext: an error occured in eglDestroyContext."],
     []⟩
  else if !env.destroySurfaceOk then
    ⟨st, true,
     ["EGLOffscreenContext::~EGLOffscreenContext: an error occured in eglDestroySurface."],
     []⟩
  else if !env.terminateDisplayOk then
    ⟨st, true,
     ["EGLOffscreenContext::~EGLOffscreenContext: an error occured in TerminateInitializedEGLDisplay."],
     []⟩
  else
    ⟨st, false, [], []⟩

/-- **C8.** `EGLOffscreenContext::Release` unbinds the context (the calling
thread's current context becomes `EGL_NO_CONTEXT`) exactly when this context
is the one currently bound on the calling thread; otherwise it issues no EGL
call and returns OK with the thread's binding unchanged.  The hypothesis
`c.context ≠ EGL_NO_CONTEXT` is the invariant established by
`EGLOffscreenContext::Create`, which rejects `EGL_NO_CONTEXT` handles; the
hypothesis on `env` says the unbinding `eglMakeCurrent` call itself does not
report an EGL error. -/
theorem egl_release_unbinds_iff_current (env : EGLEnv) (c : EGLOffscreenContext)
    (st : EGLThreadState) (hc : c.context ≠ EGL_NO_CONTEXT)
    (henv : env.makeCurrentOk EGL_NO_CONTEXT = true) :
    (st.current = c.context →
      c.Release env st = (.ok, true, ⟨EGL_NO_CONTEXT⟩)) ∧
    (st.current ≠ c.context →
      c.Release env st = (.ok, false, st)) := by
  constructor
  · intro h
    simp [EGLOffscreenContext.Release, eglMakeCurrent, hc, h, henv]
  · intro h
    simp [EGLOffscreenContext.Release, eglMakeCurrent]
    intro _ hco
    exact absurd hco.symm h

/-- Witness for `egl_release_unbinds_iff_current` at a concrete context and
thread state. -/
theorem egl_release_unbinds_iff_current_witness :
    let env : EGLEnv := ⟨fun _ => true, true, true, true⟩
    let c : EGLOffscreenContext := ⟨5, 1, 2⟩
    (c.Release env ⟨5⟩ = (.ok, true, ⟨EGL_NO_CONTEXT⟩)) ∧
    (c.Release env ⟨7⟩ = (.ok, false, ⟨7⟩)) := by
  refine ⟨(egl_release_unbinds_iff_current _ _ _ (by decide) (by decide)).1 rfl,
          (egl_release_unbinds_iff_current _ _ _ (by decide) (by decide)).2 (by decide)⟩

/-! ## GL object model for program creation (`gl_utils.cc`, `Program`)

Object names are natural numbers; `0` is the null name, fresh names are drawn
from a counter.  `time` counts the GL calls issued so far, so that the driver
oracle `errorAt` can decide after which call `glGetError` reports an error.
`linkCalled` and `linked` are event histories: programs on which a
`glLinkProgram` call completed without a GL error, respectively programs whose
`GL_LINK_STATUS` after that call is true.  Per the GL specification a link
*failure* is reported only through `GL_LINK_STATUS`; it does not raise a
`glGetError` error, which is why `linked` is driven by its own oracle. -/

structure GLObjects where
  nextId : Nat
  shaders : List Nat
  programs : List Nat
  attachments : List (Nat × Nat)
  linkCalled : List Nat
  linked : List Nat
  time : Nat
deriving DecidableEq, Repr

/-- Driver oracles for the program-creation layer. -/
structure GLProgramEnv where
  /-- does `glGetError` report an error after the GL call issued at this time -/
  errorAt : Nat → Bool
  /-- does `glCreateShader` / `glCreateProgram` return the null name here -/
  createFailsAt : Nat → Bool
  /-- `GL_COMPILE_STATUS` for a given shader source -/
  compileOk : String → Bool
  /-- the shader info log for a given shader source -/
  infoLog : String → String
  /-- `GL_LINK_STATUS` resulting from the link call issued at this time -/
  linkOkAt : Nat → Bool

def GLObjects.tick (st : GLObjects) : GLObjects := {st with time := st.time + 1}

/-- The state effect of `glDeleteShader` (the scoped cleanups issue the call
without an error check, so no clock tick is recorded for it). -/
def glDeleteShader (id : Nat) (st : GLObjects) : GLObjects :=
  {st with shaders := st.shaders.erase id}

/-- The state effect of `glDetachShader` (cleanup call). -/
def glDetachShader (program shader : Nat) (st : GLObjects) : GLObjects :=
  {st with attachments := st.attachments.erase (program, shader)}

/-- The state effect of `glDeleteProgram` (cleanup and destructor call):
deletes the program and detaches everything attached to it. -/
def glDeleteProgram (id : Nat) (st : GLObjects) : GLObjects :=
  {st with programs := st.programs.erase id,
           attachments := st.attachments.filter (fun a => a.1 ≠ id)}

/-- The state effect of a successful `glAttachShader` call. -/
def glAttachShader (program shader : Nat) (st : GLObjects) : GLObjects :=
  {st with attachments := st.attachments ++ [(program, shader)],
           time := st.time + 1}

/-- The state effect of a `glLinkProgram` call that raises no GL error: the
call is recorded in `linkCalled`; whether the program actually linked
(`GL_LINK_STATUS`, never queried by this code base) is recorded in `linked`
according to the driver oracle. -/
def glLinkProgram (env : GLProgramEnv) (program : Nat) (st : GLObjects) : GLObjects :=
  {st with linkCalled := st.linkCalled ++ [program],
           linked := if env.linkOkAt st.time then st.linked ++ [program]
                     else st.linked,
           time := st.time + 1}

/-- `Program::CompileShader(shader_code, shader_type, &shader_idx)`.  Returns
the status, the value of the out-parameter `shader_idx`, and the final state.
Each `RETURN_IF_GL_ERROR` site consults the driver oracle at the current
clock; on early-error exits after the shader object was created, the scoped
`shader_cleanup` (`glDeleteShader`) has run.  On the compile-failure branch
the code deletes the shader itself with a checked `glDeleteShader` call, and
the still-armed cleanup's second delete is a no-op on the already-deleted
name. -/
def Program.CompileShader (env : GLProgramEnv) (shader_code : String)
    (shader_type : Nat) (st : GLObjects) : TfStatus × Nat × GLObjects :=
  -- RETURN_IF_GL_ERROR(*shader_idx = glCreateShader(shader_type));
  if env.errorAt st.time then (glErrorStatus, 0, st.tick)
  else if env.createFailsAt st.time then
    -- if (*shader_idx == 0) return INVALID_ARGUMENT(...);
    (.invalidArgument "Error while creating the shader object.", 0, st.tick)
  else
    let idx := st.nextId
    let st1 : GLObjects :=
      {st with nextId := st.nextId + 1, shaders := st.shaders ++ [st.nextId],
               time := st.time + 1}
    -- auto shader_cleanup = MakeCleanup([]() { glDeleteShader(*shader_idx); });
    -- RETURN_IF_GL_ERROR(glShaderSource(*shader_idx, 1, &code, nullptr));
    if env.errorAt st1.time then (glErrorStatus, idx, glDeleteShader idx st1.tick)
    else
      -- RETURN_IF_GL_ERROR(glCompileShader(*shader_idx));
      if env.errorAt st1.tick.time then
        (glErrorStatus, idx, glDeleteShader idx st1.tick.tick)
      else
        -- RETURN_IF_GL_ERROR(glGetShaderiv(*shader_idx, GL_COMPILE_STATUS, ...));
        if env.errorAt st1.tick.tick.time then
          (glErrorStatus, idx, glDeleteShader idx st1.tick.tick.tick)
        else
          let st2 := st1.tick.tick.tick
          if env.compileOk shader_code then
            -- compilation succeeded: shader_cleanup.release(); return OK;
            (.ok, idx, st2)
          else
            -- RETURN_IF_GL_ERROR(glGetShaderiv(*shader_idx, GL_INFO_LOG_LENGTH, ...));
            if env.errorAt st2.time then
              (glErrorStatus, idx, glDeleteShader idx st2.tick)
            else
              -- RETURN_IF_GL_ERROR(glGetShaderInfoLog(*shader_idx, ...));
              if env.errorAt st2.tick.time then
                (glErrorStatus, idx, glDeleteShader idx st2.tick.tick)
              else
                -- RETURN_IF_GL_ERROR(glDeleteShader(*shader_idx));
                if env.errorAt st2.tick.tick.time then
                  (glErrorStatus, idx, glDeleteShader idx st2.tick.tick.tick)
                else
                  (.invalidArgument
                     ("Error while compiling the shader: " ++ env.infoLog shader_code),
                   idx, glDeleteShader idx (glDeleteShader idx st2.tick.tick.tick))

/-- A deferred cleanup action pushed into the `shader_cleanups` vector of
`Program::Create`. -/
inductive CleanupAct where
  | deleteShader (id : Nat)
  | detachShader (program shader : Nat)
deriving DecidableEq, Repr

def runCleanup : CleanupAct → GLObjects → GLObjects
  | .deleteShader id, st => glDeleteShader id st
  | .detachShader p s, st => glDetachShader p s st

/-- Destroying the `shader_cleanups` vector runs the pushed cleanup closures;
they are executed in reverse push order, so each shader is detached before it
is deleted. -/
def runCleanups (acts : List CleanupAct) (st : GLObjects) : GLObjects :=
  acts.foldr (fun a s => runCleanup a s) st

/-- The shader-compiling loop of `Program::Create`: for each `(code, type)`
pair, compile the shader, push its delete cleanup, attach it to the program
(`RETURN_IF_GL_ERROR(glAttachShader(...))`), push its detach cleanup.
Returns the status, the cleanup vector as pushed so far, and the state; the
caller runs the cleanups. -/
def Program.createShadersLoop (env : GLProgramEnv) (program_handle : Nat)
    (shaders : List (String × Nat)) (acc : List CleanupAct) (st : GLObjects) :
    TfStatus × List CleanupAct × GLObjects :=
  match shaders with
  | [] => (.ok, acc, st)
  | (code, ty) :: rest =>
    match Program.CompileShader env code ty st with
    | (.ok, shader_idx, st) =>
      if env.errorAt st.time then
        (glErrorStatus, acc ++ [.deleteShader shader_idx], st.tick)
      else
        Program.createShadersLoop env program_handle rest
          (acc ++ [.deleteShader shader_idx, .detachShader program_handle shader_idx])
          (glAttachShader program_handle shader_idx st)
    | (.invalidArgument m, _, st) =>
      (.invalidArgument m, acc, st)

/-- `Program::Create(shaders, &program)`: create a program object (the
`glCreateProgram` call is issued without `RETURN_IF_GL_ERROR`), compile and
attach each input shader, link (`RETURN_IF_GL_ERROR(glLinkProgram(...))`),
and construct the wrapper.  On any failure the pushed shader cleanups and the
program cleanup run (in that order, matching reverse declaration order of the
C++ locals); on success only the shader cleanups run (the program cleanup is
released), deleting the shader objects which the linked program no longer
needs.  Returns the status, the program handle on success, and the final
state. -/
def Program.Create (env : GLProgramEnv) (shaders : List (String × Nat))
    (st : GLObjects) : TfStatus × Option Nat × GLObjects :=
  -- program_handle = glCreateProgram();
  if env.createFailsAt st.time then
    (.invalidArgument "Error while creating the program object.", none, st.tick)
  else
    let program_handle := st.nextId
    let st0 : GLObjects :=
      {st with nextId := st.nextId + 1, programs := st.programs ++ [st.nextId],
               time := st.time + 1}
    -- auto program_cleanup = MakeCleanup([]() { glDeleteProgram(...); });
    match Program.createShadersLoop env program_handle shaders [] st0 with
    | (.ok, acc, st) =>
      -- RETURN_IF_GL_ERROR(glLinkProgram(program_handle));
      if env.errorAt st.time then
        (glErrorStatus, none,
         glDeleteProgram program_handle (runCleanups acc st.tick))
      else
        -- program_cleanup.release(); shader_cleanups run at scope exit.
        (.ok, some program_handle,
         runCleanups acc (glLinkProgram env program_handle st))
    | (.invalidArgument m, acc, st) =>
      (.invalidArgument m, none,
       glDeleteProgram program_handle (runCleanups acc st))

/-! ### Facts about the program-creation model -/

/-- Well-formedness of the object state: the fresh-name counter never hands
out the null name `0`, and every live name is below the counter. -/
def GLObjects.wf (st : GLObjects) : Prop :=
  0 < st.nextId ∧
  (∀ i ∈ st.shaders, i < st.nextId) ∧ (∀ i ∈ st.programs, i < st.nextId) ∧
  (∀ a ∈ st.attachments, a.1 < st.nextId ∧ a.2 < st.nextId)

theorem fresh_not_mem {l : List Nat} {n : Nat} (h : ∀ i ∈ l, i < n) : n ∉ l :=
  fun hn => lt_irrefl n (h n hn)

theorem erase_append_fresh {l : List Nat} {n : Nat} (h : n ∉ l) :
    (l ++ [n]).erase n = l := by
  rw [List.erase_append_right _ h, List.erase_cons_head, List.append_nil]

theorem erase_pair_append_fresh {l : List (Nat × Nat)} {p : Nat × Nat}
    (h : p ∉ l) : (l ++ [p]).erase p = l := by
  rw [List.erase_append_right _ h, List.erase_cons_head, List.append_nil]

theorem erase_fresh {l : List Nat} {n : Nat} (h : n ∉ l) : l.erase n = l :=
  List.erase_of_not_mem h

theorem runCleanup_fixed (a : CleanupAct) (st : GLObjects) :
    (runCleanup a st).programs = st.programs ∧
    (runCleanup a st).nextId = st.nextId ∧
    (runCleanup a st).linkCalled = st.linkCalled ∧
    (runCleanup a st).linked = st.linked := by
  cases a <;> simp [runCleanup, glDeleteShader, glDetachShader]

theorem runCleanups_fixed (acts : List CleanupAct) (st : GLObjects) :
    (runCleanups acts st).programs = st.programs ∧
    (runCleanups acts st).nextId = st.nextId ∧
    (runCleanups acts st).linkCalled = st.linkCalled ∧
    (runCleanups acts st).linked = st.linked := by
  induction acts with
  | nil => exact ⟨rfl, rfl, rfl, rfl⟩
  | cons a l ih =>
    have h := runCleanup_fixed a (runCleanups l st)
    exact ⟨h.1.trans ih.1, h.2.1.trans ih.2.1, h.2.2.1.trans ih.2.2.1,
           h.2.2.2.trans ih.2.2.2⟩

theorem runCleanups_SA_congr (acts : List CleanupAct) (st st' : GLObjects)
    (hs : st.shaders = st'.shaders) (ha : st.attachments = st'.attachments) :
    (runCleanups acts st).shaders = (runCleanups acts st').shaders ∧
    (runCleanups acts st).attachments = (runCleanups acts st').attachments := by
  induction acts with
  | nil => exact ⟨hs, ha⟩
  | cons a l ih =>
    cases a with
    | deleteShader id =>
      exact ⟨by simp [runCleanups, runCleanup, glDeleteShader] at ih ⊢; rw [ih.1],
             by simp [runCleanups, runCleanup, glDeleteShader] at ih ⊢; exact ih.2⟩
    | detachShader p s =>
      exact ⟨by simp [runCleanups, runCleanup, glDetachShader] at ih ⊢; exact ih.1,
             by simp [runCleanups, runCleanup, glDetachShader] at ih ⊢; rw [ih.2]⟩

theorem runCleanups_append_one (acts : List CleanupAct) (a : CleanupAct)
    (st : GLObjects) :
    runCleanups (acts ++ [a]) st = runCleanups acts (runCleanup a st) := by
  simp [runCleanups, List.foldr_append]

set_option maxHeartbeats 1600000 in
theorem CompileShader_spec (env : GLProgramEnv) (code : String) (ty : Nat)
    (st : GLObjects) (hwf : st.wf) :
    (Program.CompileShader env code ty st).2.2.programs = st.programs ∧
    (Program.CompileShader env code ty st).2.2.attachments = st.attachments ∧
    st.nextId ≤ (Program.CompileShader env code ty st).2.2.nextId ∧
    (Program.CompileShader env code ty st).2.2.wf ∧
    ((Program.CompileShader env code ty st).1 = .ok →
      (Program.CompileShader env code ty st).2.2.shaders = st.shaders ++ [st.nextId] ∧
      (Program.CompileShader env code ty st).2.1 = st.nextId ∧
      (Program.CompileShader env code ty st).2.2.nextId = st.nextId + 1) ∧
    ((Program.CompileShader env code ty st).1 ≠ .ok →
      (Program.CompileShader env code ty st).2.2.shaders = st.shaders) := by
  obtain ⟨hw0, hws, hwp, hwa⟩ := hwf
  have hfresh : st.nextId ∉ st.shaders := fresh_not_mem hws
  have herase : (st.shaders ++ [st.nextId]).erase st.nextId = st.shaders :=
    erase_append_fresh hfresh
  have herase2 : st.shaders.erase st.nextId = st.shaders := erase_fresh hfresh
  have hb1 : ∀ i ∈ st.shaders ++ [st.nextId], i < st.nextId + 1 := by
    intro i hi
    rcases List.mem_append.mp hi with h | h
    · exact Nat.lt_succ_of_lt (hws i h)
    · simp at h
      omega
  have hb0 : ∀ i ∈ st.shaders, i < st.nextId + 1 :=
    fun i hi => Nat.lt_succ_of_lt (hws i hi)
  have hb2 : ∀ i ∈ st.programs, i < st.nextId + 1 :=
    fun i hi => Nat.lt_succ_of_lt (hwp i hi)
  have hb3 : ∀ a ∈ st.attachments, a.1 < st.nextId + 1 ∧ a.2 < st.nextId + 1 :=
    fun a ha => ⟨Nat.lt_succ_of_lt (hwa a ha).1, Nat.lt_succ_of_lt (hwa a ha).2⟩
  have hne : st.nextId ≠ 0 := Nat.pos_iff_ne_zero.mp hw0
  refine ⟨?_, ?_, ?_, ?_, ?_, ?_⟩
  · simp only [Program.CompileShader, glDeleteShader, GLObjects.tick]
    split_ifs <;> rfl
  · simp only [Program.CompileShader, glDeleteShader, GLObjects.tick]
    split_ifs <;> rfl
  · simp only [Program.CompileShader, glDeleteShader, GLObjects.tick]
    split_ifs <;> first | exact le_refl _ | exact Nat.le_succ _
  · simp only [Program.CompileShader, glDeleteShader, GLObjects.tick]
    split_ifs <;>
      first
        | exact ⟨hw0, hws, hwp, hwa⟩
        | exact ⟨Nat.succ_pos _, hb1, hb2, hb3⟩
        | (refine ⟨Nat.succ_pos _, ?_, hb2, hb3⟩
           simp only [herase, herase2]
           exact hb0)
  · simp only [Program.CompileShader, glDeleteShader, GLObjects.tick]
    split_ifs <;>
      first
        | exact fun _ => ⟨rfl, rfl, rfl⟩
        | (intro h; simp [glErrorStatus] at h)
  · simp only [Program.CompileShader, glDeleteShader, GLObjects.tick]
    split_ifs <;>
      first
        | (intro h; exact absurd rfl h)
        | (intro _
           simp only [herase, herase2])
        | (intro _; rfl)

theorem runCleanups_append (l₁ l₂ : List CleanupAct) (st : GLObjects) :
    runCleanups (l₁ ++ l₂) st = runCleanups l₁ (runCleanups l₂ st) := by
  simp [runCleanups, List.foldr_append]

theorem createShadersLoop_spec (env : GLProgramEnv) (ph : Nat)
    (shaders : List (String × Nat)) :
    ∀ (acc : List CleanupAct) (st : GLObjects), st.wf → ph < st.nextId →
      (Program.createShadersLoop env ph shaders acc st).2.2.wf ∧
      st.nextId ≤ (Program.createShadersLoop env ph shaders acc st).2.2.nextId ∧
      (Program.createShadersLoop env ph shaders acc st).2.2.programs = st.programs ∧
      (runCleanups (Program.createShadersLoop env ph shaders acc st).2.1
        (Program.createShadersLoop env ph shaders acc st).2.2).shaders =
        (runCleanups acc st).shaders ∧
      (runCleanups (Program.createShadersLoop env ph shaders acc st).2.1
        (Program.createShadersLoop env ph shaders acc st).2.2).attachments =
        (runCleanups acc st).attachments := by
  induction shaders with
  | nil =>
    intro acc st hwf _
    exact ⟨hwf, le_refl _, rfl, rfl, rfl⟩
  | cons hd rest ih =>
    intro acc st hwf hph
    obtain ⟨code, ty⟩ := hd
    have hcs := CompileShader_spec env code ty st hwf
    rcases hres : Program.CompileShader env code ty st with ⟨s, idx, st₁⟩
    rw [hres] at hcs
    dsimp only at hcs
    obtain ⟨hprog, hatt, hnext, hwf₁, hok, hnok⟩ := hcs
    cases s with
    | invalidArgument m =>
      simp only [Program.createShadersLoop, hres]
      have hsh : st₁.shaders = st.shaders := hnok (by simp)
      have hSA := runCleanups_SA_congr acc st₁ st hsh hatt
      exact ⟨hwf₁, hnext, hprog, hSA.1, hSA.2⟩
    | ok =>
      obtain ⟨hsh, hidx, hnid⟩ := hok rfl
      obtain ⟨hw0, hws, hwp, hwa⟩ := hwf
      have hfresh : st.nextId ∉ st.shaders := fresh_not_mem hws
      have hpfresh : (ph, idx) ∉ st.attachments := by
        intro hmem
        have := (hwa _ hmem).2
        omega
      simp only [Program.createShadersLoop, hres]
      by_cases hf : env.errorAt st₁.time
      · simp only [hf, if_true]
        have hshd : (runCleanup (.deleteShader idx) st₁.tick).shaders = st.shaders := by
          simp only [runCleanup, glDeleteShader, GLObjects.tick]
          rw [hsh, hidx]
          exact erase_append_fresh hfresh
        have hatd : (runCleanup (.deleteShader idx) st₁.tick).attachments =
            st.attachments := hatt
        have hSA := runCleanups_SA_congr acc
          (runCleanup (.deleteShader idx) st₁.tick) st hshd hatd
        refine ⟨hwf₁, le_trans hnext (le_refl _), hprog, ?_, ?_⟩
        · rw [runCleanups_append_one]
          exact hSA.1
        · rw [runCleanups_append_one]
          exact hSA.2
      · simp only [hf, if_false]
        have hwf₂ : (glAttachShader ph idx st₁).wf := by
          obtain ⟨h10, h1s, h1p, h1a⟩ := hwf₁
          simp only [glAttachShader, GLObjects.wf]
          refine ⟨h10, h1s, h1p, ?_⟩
          intro a ha
          rcases List.mem_append.mp ha with h | h
          · exact h1a a h
          · simp at h
            subst h
            exact ⟨by omega, by omega⟩
        have hph₂ : ph < (glAttachShader ph idx st₁).nextId := by
          simp only [glAttachShader]
          omega
        have hrec := ih (acc ++ [.deleteShader idx, .detachShader ph idx])
          (glAttachShader ph idx st₁) hwf₂ hph₂
        have hinner :
            runCleanups (acc ++ [.deleteShader idx, .detachShader ph idx])
              (glAttachShader ph idx st₁) =
            runCleanups acc
              (runCleanup (.deleteShader idx)
                (runCleanup (.detachShader ph idx) (glAttachShader ph idx st₁))) := by
          rw [runCleanups_append]
          rfl
        have hsh₂ : (runCleanup (.deleteShader idx)
            (runCleanup (.detachShader ph idx) (glAttachShader ph idx st₁))).shaders =
            st.shaders := by
          simp only [runCleanup, glDetachShader, glDeleteShader, glAttachShader]
          rw [hsh, hidx]
          exact erase_append_fresh hfresh
        have hat₂ : (runCleanup (.deleteShader idx)
            (runCleanup (.detachShader ph idx) (glAttachShader ph idx st₁))).attachments =
            st.attachments := by
          simp only [runCleanup, glDetachShader, glDeleteShader, glAttachShader]
          rw [hatt, hidx]
          exact erase_pair_append_fresh (hidx ▸ hpfresh)
        have hSA := runCleanups_SA_congr acc
          (runCleanup (.deleteShader idx)
            (runCleanup (.detachShader ph idx) (glAttachShader ph idx st₁))) st
          hsh₂ hat₂
        refine ⟨hrec.1, ?_, ?_, ?_, ?_⟩
        · exact le_trans hnext hrec.2.1
        · exact hrec.2.2.1.trans hprog
        · exact hrec.2.2.2.1.trans ((congrArg GLObjects.shaders hinner).trans hSA.1)
        · exact hrec.2.2.2.2.trans ((congrArg GLObjects.attachments hinner).trans hSA.2)

theorem CompileShader_clean (env : GLProgramEnv) (code : String) (ty : Nat)
    (st : GLObjects) (he : ∀ t, env.errorAt t = false)
    (hc : ∀ t, env.createFailsAt t = false) :
    (Program.CompileShader env code ty st).1 =
      (if env.compileOk code then .ok
       else .invalidArgument ("Error while compiling the shader: " ++ env.infoLog code)) := by
  by_cases hk : env.compileOk code <;>
    simp [Program.CompileShader, he, hc, hk, GLObjects.tick]

theorem createShadersLoop_clean_fail (env : GLProgramEnv) (ph : Nat)
    (he : ∀ t, env.errorAt t = false) (hc : ∀ t, env.createFailsAt t = false)
    (code : String) (ty : Nat) (hbad : env.compileOk code = false) :
    ∀ (pre : List (String × Nat)), (∀ p ∈ pre, env.compileOk p.1 = true) →
    ∀ (rest : List (String × Nat)) (acc : List CleanupAct) (st : GLObjects),
      (Program.createShadersLoop env ph (pre ++ (code, ty) :: rest) acc st).1 =
        .invalidArgument ("Error while compiling the shader: " ++ env.infoLog code) := by
  intro pre
  induction pre with
  | nil =>
    intro _ rest acc st
    have hs := CompileShader_clean env code ty st he hc
    rw [hbad] at hs
    simp only [if_false, Bool.false_eq_true] at hs
    rcases hres : Program.CompileShader env code ty st with ⟨s, idx, st₁⟩
    rw [hres] at hs
    dsimp only at hs
    subst hs
    simp only [List.nil_append, Program.createShadersLoop, hres]
  | cons p pre ih =>
    intro hpre rest acc st
    obtain ⟨pcode, pty⟩ := p
    have hpok : env.compileOk pcode = true := hpre (pcode, pty) (List.mem_cons_self _ _)
    have hs := CompileShader_clean env pcode pty st he hc
    rw [hpok] at hs
    simp only [if_true] at hs
    rcases hres : Program.CompileShader env pcode pty st with ⟨s, idx, st₁⟩
    rw [hres] at hs
    dsimp only at hs
    subst hs
    simp only [List.cons_append, Program.createShadersLoop, hres, he, Bool.false_eq_true,
      if_false]
    exact ih (fun q hq => hpre q (List.mem_cons_of_mem _ hq)) rest _ _

theorem filter_ne_fresh {l : List (Nat × Nat)} {n : Nat}
    (h : ∀ a ∈ l, a.1 < n) : l.filter (fun a => a.1 ≠ n) = l := by
  rw [List.filter_eq_self]
  intro a ha
  simp only [decide_eq_true_eq]
  have := h a ha
  omega

theorem Create_rollback (env : GLProgramEnv) (shaders : List (String × Nat))
    (st : GLObjects) (hwf : st.wf) :
    (Program.Create env shaders st).1 ≠ .ok →
      (Program.Create env shaders st).2.2.shaders = st.shaders ∧
      (Program.Create env shaders st).2.2.programs = st.programs ∧
      (Program.Create env shaders st).2.2.attachments = st.attachments := by
  obtain ⟨hw0, hws, hwp, hwa⟩ := hwf
  have hpfresh : st.nextId ∉ st.programs := fresh_not_mem hwp
  by_cases hcf : env.createFailsAt st.time
  · intro _
    simp only [Program.Create, hcf, if_true]
    exact ⟨rfl, rfl, rfl⟩
  · have hwf0 : GLObjects.wf {st with nextId := st.nextId + 1, programs := st.programs ++ [st.nextId], time := st.time + 1} := by
      refine ⟨Nat.succ_pos _, fun i hi => Nat.lt_succ_of_lt (hws i hi), ?_,
        fun a ha => ⟨Nat.lt_succ_of_lt (hwa a ha).1, Nat.lt_succ_of_lt (hwa a ha).2⟩⟩
      intro i hi
      rcases List.mem_append.mp hi with h | h
      · exact Nat.lt_succ_of_lt (hwp i h)
      · simp at h
        subst h
        exact Nat.lt_succ_self _
    have hloop := createShadersLoop_spec env st.nextId shaders []
      {st with nextId := st.nextId + 1, programs := st.programs ++ [st.nextId], time := st.time + 1}
      hwf0 (Nat.lt_succ_self _)
    rcases hKey : Program.createShadersLoop env st.nextId shaders []
      {st with nextId := st.nextId + 1, programs := st.programs ++ [st.nextId], time := st.time + 1}
      with ⟨s, acc, st₁⟩
    rw [hKey] at hloop
    dsimp only at hloop
    obtain ⟨hwf₁, hnext, hprogs, hshSA, hatSA⟩ := hloop
    have hcf' : env.createFailsAt st.time = false := by
      simpa using hcf
    cases s with
    | invalidArgument m =>
      intro _
      simp only [Program.Create, hcf', Bool.false_eq_true, if_false, hKey]
      refine ⟨hshSA, ?_, ?_⟩
      · simp only [glDeleteProgram]
        rw [(runCleanups_fixed acc st₁).1, hprogs]
        exact erase_append_fresh hpfresh
      · simp only [glDeleteProgram]
        rw [hatSA]
        exact filter_ne_fresh (fun a ha => (hwa a ha).1)
    | ok =>
      by_cases hlf : env.errorAt st₁.time
      · intro _
        simp only [Program.Create, hcf', Bool.false_eq_true, if_false, hKey, hlf, if_true]
        have htick := runCleanups_SA_congr acc st₁.tick st₁ rfl rfl
        refine ⟨htick.1.trans hshSA, ?_, ?_⟩
        · simp only [glDeleteProgram]
          rw [(runCleanups_fixed acc st₁.tick).1]
          show st₁.programs.erase st.nextId = st.programs
          rw [hprogs]
          exact erase_append_fresh hpfresh
        · simp only [glDeleteProgram]
          rw [htick.2.trans hatSA]
          exact filter_ne_fresh (fun a ha => (hwa a ha).1)
      · intro h
        exfalso
        apply h
        simp only [Program.Create, hcf', Bool.false_eq_true, if_false, hKey, hlf]

theorem Create_success (env : GLProgramEnv) (shaders : List (String × Nat))
    (st : GLObjects) (hwf : st.wf) :
    (Program.Create env shaders st).1 = .ok →
      ∃ ph, (Program.Create env shaders st).2.1 = some ph ∧
        ph ∈ (Program.Create env shaders st).2.2.programs ∧
        ph ∈ (Program.Create env shaders st).2.2.linkCalled ∧
        (Program.Create env shaders st).2.2.shaders = st.shaders := by
  obtain ⟨hw0, hws, hwp, hwa⟩ := hwf
  by_cases hcf : env.createFailsAt st.time
  · intro h
    simp only [Program.Create, hcf, if_true] at h
    exact absurd h (by simp)
  · have hwf0 : GLObjects.wf {st with nextId := st.nextId + 1, programs := st.programs ++ [st.nextId], time := st.time + 1} := by
      refine ⟨Nat.succ_pos _, fun i hi => Nat.lt_succ_of_lt (hws i hi), ?_,
        fun a ha => ⟨Nat.lt_succ_of_lt (hwa a ha).1, Nat.lt_succ_of_lt (hwa a ha).2⟩⟩
      intro i hi
      rcases List.mem_append.mp hi with h | h
      · exact Nat.lt_succ_of_lt (hwp i h)
      · simp at h
        subst h
        exact Nat.lt_succ_self _
    have hloop := createShadersLoop_spec env st.nextId shaders []
      {st with nextId := st.nextId + 1, programs := st.programs ++ [st.nextId], time := st.time + 1}
      hwf0 (Nat.lt_succ_self _)
    rcases hKey : Program.createShadersLoop env st.nextId shaders []
      {st with nextId := st.nextId + 1, programs := st.programs ++ [st.nextId], time := st.time + 1}
      with ⟨s, acc, st₁⟩
    rw [hKey] at hloop
    dsimp only at hloop
    obtain ⟨hwf₁, hnext, hprogs, hshSA, hatSA⟩ := hloop
    have hcf' : env.createFailsAt st.time = false := by
      simpa using hcf
    cases s with
    | invalidArgument m =>
      intro h
      simp only [Program.Create, hcf', Bool.false_eq_true, if_false, hKey] at h
      exact absurd h (by simp)
    | ok =>
      by_cases hlf : env.errorAt st₁.time
      · intro h
        simp only [Program.Create, hcf', Bool.false_eq_true, if_false, hKey, hlf,
          if_true] at h
        exact absurd h (by simp [glErrorStatus])
      · intro _
        refine ⟨st.nextId, ?_, ?_, ?_, ?_⟩
        · simp only [Program.Create, hcf', Bool.false_eq_true, if_false, hKey, hlf]
        · simp only [Program.Create, hcf', Bool.false_eq_true, if_false, hKey, hlf]
          rw [(runCleanups_fixed acc
            (glLinkProgram env st.nextId st₁)).1]
          show st.nextId ∈ st₁.programs
          rw [hprogs]
          exact List.mem_append_right _ (List.mem_singleton_self _)
        · simp only [Program.Create, hcf', Bool.false_eq_true, if_false, hKey, hlf]
          rw [(runCleanups_fixed acc
            (glLinkProgram env st.nextId st₁)).2.2.1]
          show st.nextId ∈ st₁.linkCalled ++ [st.nextId]
          exact List.mem_append_right _ (List.mem_singleton_self _)
        · simp only [Program.Create, hcf', Bool.false_eq_true, if_false, hKey, hlf]
          have hcg := runCleanups_SA_congr acc
            (glLinkProgram env st.nextId st₁) st₁ rfl rfl
          exact hcg.1.trans hshSA

/-- **C3 (amended).** Program creation is rollback-clean.  For every driver
environment, input list and well-formed initial state: (1) if `Program::Create`
fails, no program, shader, or attachment created during the call survives;
(2) if `Create` returns success, the returned handle is a live program object
on which `glLinkProgram` was issued without raising a GL error — but
`GL_LINK_STATUS` is never checked, so the handle being a *successfully linked*
program is not guaranteed (the counterexample exhibits a success whose link
status is false) — and the intermediate shader objects are all cleaned up;
(3) if the driver reports no GL errors and no creation failures and every
shader before `code` compiles while `code` does not, the native compiler log
for `code` is surfaced as the error detail. -/
theorem program_create_amended (env : GLProgramEnv) (shaders : List (String × Nat))
    (st : GLObjects) (hwf : st.wf) :
    ((Program.Create env shaders st).1 ≠ .ok →
      (Program.Create env shaders st).2.2.shaders = st.shaders ∧
      (Program.Create env shaders st).2.2.programs = st.programs ∧
      (Program.Create env shaders st).2.2.attachments = st.attachments) ∧
    ((Program.Create env shaders st).1 = .ok →
      ∃ ph, (Program.Create env shaders st).2.1 = some ph ∧
        ph ∈ (Program.Create env shaders st).2.2.programs ∧
        ph ∈ (Program.Create env shaders st).2.2.linkCalled ∧
        (Program.Create env shaders st).2.2.shaders = st.shaders) ∧
    (∀ (pre : List (String × Nat)) (code : String) (ty : Nat)
        (rest : List (String × Nat)),
      shaders = pre ++ (code, ty) :: rest →
      (∀ t, env.errorAt t = false) → (∀ t, env.createFailsAt t = false) →
      (∀ p ∈ pre, env.compileOk p.1 = true) → env.compileOk code = false →
      (Program.Create env shaders st).1 =
        .invalidArgument ("Error while compiling the shader: " ++ env.infoLog code)) := by
  refine ⟨Create_rollback env shaders st hwf, Create_success env shaders st hwf, ?_⟩
  intro pre code ty rest hsplit he hc hpre hbad
  subst hsplit
  simp only [Program.Create, hc st.time, Bool.false_eq_true, if_false]
  have hcl := createShadersLoop_clean_fail env st.nextId he hc code ty hbad pre hpre rest []
    {st with nextId := st.nextId + 1, programs := st.programs ++ [st.nextId], time := st.time + 1}
  rcases hKey : Program.createShadersLoop env st.nextId (pre ++ (code, ty) :: rest) []
    {st with nextId := st.nextId + 1, programs := st.programs ++ [st.nextId], time := st.time + 1}
    with ⟨s, acc, st₁⟩
  rw [hKey] at hcl
  dsimp only at hcl
  subst hcl
  simp only [hKey]

/-- Driver environment for the link-status counterexample: every GL call
succeeds and the single shader compiles, but the program fails to link
(`GL_LINK_STATUS` is false) — a condition `glGetError` does not report and
the code never queries. -/
def c3env : GLProgramEnv :=
  { errorAt := fun _ => false, createFailsAt := fun _ => false,
    compileOk := fun _ => true, infoLog := fun _ => "", linkOkAt := fun _ => false }

/-- An empty, well-formed initial object state. -/
def c3st : GLObjects := ⟨1, [], [], [], [], [], 0⟩

/-- **C3, counterexample.** `Program::Create` returns success and hands out
program handle 1; `glLinkProgram` was issued on it without a GL error, yet the
program is not successfully linked (its `GL_LINK_STATUS` is false), because
the code never checks the link status.  This refutes "if Program::Create
returns success the returned handle is a successfully linked program". -/
theorem program_create_unlinked_success_counterexample :
    (Program.Create c3env [("vs", GL_VERTEX_SHADER)] c3st).1 = .ok ∧
    (Program.Create c3env [("vs", GL_VERTEX_SHADER)] c3st).2.1 = some 1 ∧
    1 ∈ (Program.Create c3env [("vs", GL_VERTEX_SHADER)] c3st).2.2.linkCalled ∧
    1 ∉ (Program.Create c3env [("vs", GL_VERTEX_SHADER)] c3st).2.2.linked := by
  decide

/-- Driver environment for the witness: the shader `"good"` compiles, every
other source fails with log `"BAD SHADER LOG"`. -/
def c3wenv : GLProgramEnv :=
  { errorAt := fun _ => false, createFailsAt := fun _ => false,
    compileOk := fun s => s == "good", infoLog := fun _ => "BAD SHADER LOG",
    linkOkAt := fun _ => true }

/-- Witness for `program_create_amended` at a concrete input: the second
shader fails to compile, its log is surfaced, and no program object survives. -/
theorem program_create_amended_witness :
    (Program.Create c3wenv [("good", GL_VERTEX_SHADER), ("bad", GL_FRAGMENT_SHADER)] c3st).1 =
      .invalidArgument "Error while compiling the shader: BAD SHADER LOG" ∧
    (Program.Create c3wenv [("good", GL_VERTEX_SHADER), ("bad", GL_FRAGMENT_SHADER)] c3st).2.2.programs = [] := by
  have h := program_create_amended c3wenv
    [("good", GL_VERTEX_SHADER), ("bad", GL_FRAGMENT_SHADER)] c3st
    (by exact ⟨Nat.one_pos, by simp [c3st], by simp [c3st], by simp [c3st]⟩)
  exact ⟨h.2.2 [("good", GL_VERTEX_SHADER)] "bad" GL_FRAGMENT_SHADER [] rfl
          (fun _ => rfl) (fun _ => rfl) (by decide) (by decide),
         (h.1 (by decide)).2.1⟩

/-! ## Render pipeline model (`gl_utils.h` `RenderTargets`/`ShaderStorageBuffer`,
`rasterizer.h` `Rasterizer`)

Pixel channel values are rationals (the exact float values the claims mention
are representable, and the driver's readback format conversion is an oracle).
The per-thread GL state visible to the rasterizer is modelled explicitly;
each operation additionally returns the list of GL calls it issued, in order.
The `Rasterizer` in this repository instantiates its render target at `float`
(`RenderTargets<float>`), so `Rasterizer::Render` reads back with `GL_FLOAT`. -/

structure Pixel where
  r : ℚ
  g : ℚ
  b : ℚ
  a : ℚ
deriving DecidableEq, Repr

/-- `glReadPixels(0, 0, w, h, GL_RGBA, type, data)` delivers, for each pixel
in order, its four channels R, G, B, A. -/
def flattenRGBA : List Pixel → List ℚ
  | [] => []
  | p :: ps => p.r :: p.g :: p.b :: p.a :: flattenRGBA ps

/-- The two pixel types this code reads back with (`GL_UNSIGNED_BYTE`,
`GL_FLOAT`). -/
inductive PixelType where
  | unsignedByte : PixelType
  | float : PixelType
deriving DecidableEq, Repr

/-- The closed set of template instantiations of `RenderTargets<T>` that have
`Create`/`ReadPixels` specializations: `uint8` and `float`. -/
inductive ElementType where
  | uint8 : ElementType
  | float : ElementType
deriving DecidableEq, Repr

/-- The data of a `gl_utils::RenderTargets<T>`: `{width_, height_,
color_buffer_, depth_buffer_, frame_buffer_}`. -/
structure RenderTargetsM where
  width : Nat
  height : Nat
  color_buffer : Nat
  depth_buffer : Nat
  frame_buffer : Nat
deriving DecidableEq, Repr

/-- GL calls issued by the render-path operations, in order. -/
inductive GLEvt where
  | disable (cap : Nat)
  | enable (cap : Nat)
  | getProgramResourceIndex (interface : Nat) (name : String)
  | getProgramResourceiv (interface : Nat) (index : Nat)
  | bindBufferBase (slot : Int) (buffer : Nat)
  | useProgram (p : Nat)
  | bindFramebuffer (fb : Nat)
  | viewport (w h : Nat)
  | clearColor (r g b a : ℚ)
  | clearDepthf (d : ℚ)
  | clear (mask : Nat)
  | drawArrays (mode first count : Nat)
  | readPixels (w h : Nat) (pixel_type : PixelType)
  | uniformMatrix (cols rows : Nat) (location : Int) (count : Nat)
      (transpose : Bool) (data : List ℚ)
deriving DecidableEq, Repr

/-- The GL state visible to the rasterizer on the calling thread. -/
structure RState where
  /-- color contents of the framebuffer the render target draws into -/
  pixels : List Pixel
  /-- depth contents of that framebuffer -/
  depth : List ℚ
  clearColor : Pixel
  clearDepth : ℚ
  activeProgram : Nat
  boundFramebuffer : Nat
  viewport : Nat × Nat
  blend : Bool
  depthTest : Bool
  cullFace : Bool
  time : Nat
deriving DecidableEq, Repr

def RState.tick (st : RState) : RState := {st with time := st.time + 1}

/-- Driver oracles for the render path: GL-error firing per call, the linked
program's active-resource tables (`glGetProgramResourceIndex` /
`glGetProgramResourceiv`), the framebuffer effect of a draw call with a
positive vertex count (the shaders are opaque), and readback format
conversion per pixel type (identity for `GL_FLOAT` readback of a float
renderbuffer). -/
structure RenderEnv where
  errorAt : Nat → Bool
  resourceIndex : Nat → String → Nat
  resourceLength : Nat → Nat → Nat
  resourceValue : Nat → Nat → Nat → Int
  draw : Nat → List Pixel × List ℚ → List Pixel × List ℚ
  convert : PixelType → ℚ → ℚ

/-- `Program::GetResourceProperty(resource_name, program_interface, 1,
&property, 1, &value)` as called by the rasterizer (both call sites pass one
property, so the `num_property_value != num_properties` guard passes).
Mirrors `GetProgramResourceIndex`, the `GL_INVALID_INDEX` check,
`GetProgramResourceiv`, and the returned-length consistency check. -/
def Program.GetResourceProperty (env : RenderEnv) (name : String)
    (interface : Nat) (property : Nat) (st : RState) :
    TfStatus × Int × List GLEvt × RState :=
  -- RETURN_IF_GL_ERROR(*resource_index = glGetProgramResourceIndex(...));
  if env.errorAt st.time then
    (glErrorStatus, 0, [.getProgramResourceIndex interface name], st.tick)
  else
    let resource_index := env.resourceIndex interface name
    -- if (resource_index == GL_INVALID_INDEX) return INVALID_ARGUMENT(...);
    if resource_index = GL_INVALID_INDEX then
      (.invalidArgument "GL_INVALID_INDEX", 0,
       [.getProgramResourceIndex interface name], st.tick)
    else
      -- RETURN_IF_GL_ERROR(glGetProgramResourceiv(...));
      if env.errorAt st.tick.time then
        (glErrorStatus, 0,
         [.getProgramResourceIndex interface name,
          .getProgramResourceiv interface resource_index], st.tick.tick)
      else if env.resourceLength interface resource_index ≠ 1 then
        (.invalidArgument "length != num_properties", 0,
         [.getProgramResourceIndex interface name,
          .getProgramResourceiv interface resource_index], st.tick.tick)
      else
        (.ok, env.resourceValue interface resource_index property,
         [.getProgramResourceIndex interface name,
          .getProgramResourceiv interface resource_index], st.tick.tick)

/-- `ShaderStorageBuffer::BindBufferBase(index)`:
`RETURN_IF_GL_ERROR(glBindBufferBase(GL_SHADER_STORAGE_BUFFER, index, buffer_))`. -/
def ShaderStorageBuffer.BindBufferBase (env : RenderEnv) (buffer : Nat)
    (index : Int) (st : RState) : TfStatus × List GLEvt × RState :=
  if env.errorAt st.time then
    (glErrorStatus, [.bindBufferBase index buffer], st.tick)
  else
    (.ok, [.bindBufferBase index buffer], st.tick)

/-- `RenderTargets<T>::BindFramebuffer()`:
`RETURN_IF_GL_ERROR(glBindFramebuffer(GL_FRAMEBUFFER, frame_buffer_))`. -/
def RenderTargets.BindFramebuffer (env : RenderEnv) (rt : RenderTargetsM)
    (st : RState) : TfStatus × List GLEvt × RState :=
  if env.errorAt st.time then
    (glErrorStatus, [.bindFramebuffer rt.frame_buffer], st.tick)
  else
    (.ok, [.bindFramebuffer rt.frame_buffer],
     {st with boundFramebuffer := rt.frame_buffer, time := st.time + 1})

/-- `RenderTargets<T>::ReadPixelsValidPixelType(buffer, pixel_type)` over a
caller buffer of length `bufferLen`: fail unless the buffer holds exactly
`width * height * 4` elements, then
`RETURN_IF_GL_ERROR(glReadPixels(0, 0, width_, height_, GL_RGBA, pixel_type,
buffer.data()))`, which fills the buffer with every pixel's four channels
converted by the driver to the requested pixel type. -/
def RenderTargets.ReadPixelsValidPixelType (env : RenderEnv)
    (rt : RenderTargetsM) (pixel_type : PixelType) (bufferLen : Nat)
    (st : RState) : TfStatus × Option (List ℚ) × List GLEvt × RState :=
  if bufferLen ≠ rt.width * rt.height * 4 then
    (.invalidArgument "Buffer size is not equal to width * height * 4", none, [], st)
  else if env.errorAt st.time then
    (glErrorStatus, none, [.readPixels rt.width rt.height pixel_type], st.tick)
  else
    (.ok, some ((flattenRGBA st.pixels).map (env.convert pixel_type)),
     [.readPixels rt.width rt.height pixel_type], st.tick)

/-- `RenderTargets<T>::ReadPixels(buffer)` — the `uint8` specialization reads
with `GL_UNSIGNED_BYTE`, the `float` specialization with `GL_FLOAT`. -/
def RenderTargets.ReadPixels (env : RenderEnv) (rt : RenderTargetsM)
    (elem : ElementType) (bufferLen : Nat) (st : RState) :
    TfStatus × Option (List ℚ) × List GLEvt × RState :=
  match elem with
  | .uint8 => RenderTargets.ReadPixelsValidPixelType env rt .unsignedByte bufferLen st
  | .float => RenderTargets.ReadPixelsValidPixelType env rt .float bufferLen st

/-- Which native pixel type each `ReadPixels` specialization requests. -/
def ElementType.pixelType : ElementType → PixelType
  | .uint8 => .unsignedByte
  | .float => .float

/-- The data of a `Rasterizer<float>`: the program handle, the render target,
`shader_storage_buffers_` as a name → buffer-handle association list, and the
four stored clear parameters. -/
structure RasterizerM where
  program : Nat
  render_targets : RenderTargetsM
  shader_storage_buffers : List (String × Nat)
  clear_r : ℚ
  clear_g : ℚ
  clear_b : ℚ
  clear_depth : ℚ
deriving DecidableEq, Repr

/-- The matrix `type_mapping` table of `Rasterizer::SetUniformMatrix`: GL
matrix-type enum ↦ (num_columns, num_rows); `GL_FLOAT_MAT{c}x{r}` has `c`
columns and `r` rows, and the pair determines which column-major
`glUniformMatrix{c}x{r}fv` setter is used. -/
def type_mapping (t : Int) : Option (Nat × Nat) :=
  if t = (GL_FLOAT_MAT2 : Int) then some (2, 2)
  else if t = (GL_FLOAT_MAT3 : Int) then some (3, 3)
  else if t = (GL_FLOAT_MAT4 : Int) then some (4, 4)
  else if t = (GL_FLOAT_MAT2x3 : Int) then some (2, 3)
  else if t = (GL_FLOAT_MAT2x4 : Int) then some (2, 4)
  else if t = (GL_FLOAT_MAT3x2 : Int) then some (3, 2)
  else if t = (GL_FLOAT_MAT3x4 : Int) then some (3, 4)
  else if t = (GL_FLOAT_MAT4x2 : Int) then some (4, 2)
  else if t = (GL_FLOAT_MAT4x3 : Int) then some (4, 3)
  else none

/-- `Rasterizer::SetUniformMatrix(name, num_columns, num_rows, transpose,
matrix)`.  Checks `num_rows * num_columns == matrix.size()`; resolves the
uniform's `GL_TYPE` via `GetResourceProperty` (which already fails when the
name is not an active uniform); compares the `GLint` type against
`GL_INVALID_INDEX` (an `int` vs `unsigned` comparison in C++, so the signed
value is reduced mod `2^32`); looks the type up in `type_mapping`; checks the
declared (columns, rows) against the request; resolves `GL_LOCATION`;
activates the program; issues the matching column-major matrix-upload call.
The scoped cleanup `glUseProgram(0)` is never released, so the program is
deactivated on every exit path past its arming point. -/
def Rasterizer.SetUniformMatrix (env : RenderEnv) (r : RasterizerM)
    (name : String) (num_columns num_rows : Nat) (transpose : Bool)
    (matrix : List ℚ) (st : RState) : TfStatus × List GLEvt × RState :=
  -- if (num_rows * num_columns != matrix.size()) return INVALID_ARGUMENT(...);
  if num_rows * num_columns ≠ matrix.length then
    (.invalidArgument "num_rows * num_columns != matrix.size()", [], st)
  else
    match Program.GetResourceProperty env name GL_UNIFORM GL_TYPE st with
    | (.invalidArgument m, _, evts, st) => (.invalidArgument m, evts, st)
    | (.ok, uniform_type, evts, st) =>
      -- if (uniform_type == GL_INVALID_INDEX) return INVALID_ARGUMENT(...);
      if uniform_type % 4294967296 = (GL_INVALID_INDEX : Int) then
        (.invalidArgument "GL_INVALID_INDEX", evts, st)
      else
        match type_mapping uniform_type with
        | none => (.invalidArgument "Unsupported type", evts, st)
        | some (cols, rows) =>
          if cols ≠ num_columns ∨ rows ≠ num_rows then
            (.invalidArgument "Invalid dimensions", evts, st)
          else
            match Program.GetResourceProperty env name GL_UNIFORM GL_LOCATION st with
            | (.invalidArgument m, _, evts2, st) =>
              (.invalidArgument m, evts ++ evts2, st)
            | (.ok, uniform_location, evts2, st) =>
              -- RETURN_IF_TF_ERROR(program_->Use());
              if env.errorAt st.time then
                (glErrorStatus, evts ++ evts2 ++ [.useProgram r.program], st.tick)
              else
                -- auto program_cleanup = MakeCleanup(glUseProgram(0));
                -- RETURN_IF_GL_ERROR(setter(location, 1, transpose, data));
                if env.errorAt (st.time + 1) then
                  (glErrorStatus,
                   evts ++ evts2 ++
                     [.useProgram r.program,
                      .uniformMatrix cols rows uniform_location 1 transpose matrix,
                      .useProgram 0],
                   {st with activeProgram := 0, time := st.time + 2})
                else
                  (.ok,
                   evts ++ evts2 ++
                     [.useProgram r.program,
                      .uniformMatrix cols rows uniform_location 1 transpose matrix,
                      .useProgram 0],
                   {st with activeProgram := 0, time := st.time + 2})

/-- The storage-buffer binding loop of `Rasterizer::Render`: for each held
buffer, look up its `GL_BUFFER_BINDING` slot under `GL_SHADER_STORAGE_BLOCK`;
if the lookup fails — "Buffer not found in program, so do nothing" — skip the
buffer and continue; otherwise bind the buffer to the slot
(`RETURN_IF_TF_ERROR(buffer.second->BindBufferBase(slot))`). -/
def Rasterizer.bindBuffersLoop (env : RenderEnv)
    (buffers : List (String × Nat)) (st : RState) :
    TfStatus × List GLEvt × RState :=
  match buffers with
  | [] => (.ok, [], st)
  | (name, buf) :: rest =>
    match Program.GetResourceProperty env name GL_SHADER_STORAGE_BLOCK
        GL_BUFFER_BINDING st with
    | (.ok, slot, evts, st) =>
      match ShaderStorageBuffer.BindBufferBase env buf slot st with
      | (.ok, evts2, st) =>
        match Rasterizer.bindBuffersLoop env rest st with
        | (s, evts3, st) => (s, evts ++ evts2 ++ evts3, st)
      | (.invalidArgument m, evts2, st) =>
        (.invalidArgument m, evts ++ evts2, st)
    | (.invalidArgument _, _, evts, st) =>
      -- Buffer not found in program, so do nothing.
      match Rasterizer.bindBuffersLoop env rest st with
      | (s, evts3, st) => (s, evts ++ evts3, st)

/-- `Rasterizer<float>::Render(num_points, result)` over a result span of
`resultLen` elements.  Step for step: disable blending, enable depth test,
disable face culling; bind held storage buffers (silently skipping unmatched
names); `Use()` the program, arming a `glUseProgram(0)` cleanup that runs on
every later error exit and is released on success; bind the render target's
framebuffer; set the viewport; set the clear color — alpha hard-coded to 1.0 —
and clear depth from the stored parameters; clear both buffers; draw
`num_points` `GL_POINTS` (per the GL specification a zero-count draw writes
nothing; a positive-count draw's effect on the framebuffer is the driver/
shader oracle `env.draw`); read back the pixels. -/
def Rasterizer.Render (env : RenderEnv) (r : RasterizerM) (num_points : Nat)
    (resultLen : Nat) (st : RState) :
    TfStatus × Option (List ℚ) × List GLEvt × RState :=
  -- RETURN_IF_GL_ERROR(glDisable(GL_BLEND));
  if env.errorAt st.time then (glErrorStatus, none, [.disable GL_BLEND], st.tick)
  else
    let st := {st with blend := false, time := st.time + 1}
    -- RETURN_IF_GL_ERROR(glEnable(GL_DEPTH_TEST));
    if env.errorAt st.time then
      (glErrorStatus, none, [.disable GL_BLEND, .enable GL_DEPTH_TEST], st.tick)
    else
      let st := {st with depthTest := true, time := st.time + 1}
      -- RETURN_IF_GL_ERROR(glDisable(GL_CULL_FACE));
      if env.errorAt st.time then
        (glErrorStatus, none,
         [.disable GL_BLEND, .enable GL_DEPTH_TEST, .disable GL_CULL_FACE], st.tick)
      else
        let st := {st with cullFace := false, time := st.time + 1}
        let evts0 : List GLEvt :=
          [.disable GL_BLEND, .enable GL_DEPTH_TEST, .disable GL_CULL_FACE]
        match Rasterizer.bindBuffersLoop env r.shader_storage_buffers st with
        | (.invalidArgument m, evtsL, st) =>
          (.invalidArgument m, none, evts0 ++ evtsL, st)
        | (.ok, evtsL, st) =>
          -- RETURN_IF_TF_ERROR(program_->Use());
          if env.errorAt st.time then
            (glErrorStatus, none, evts0 ++ evtsL ++ [.useProgram r.program], st.tick)
          else
            let st := {st with activeProgram := r.program, time := st.time + 1}
            let evts1 := evts0 ++ evtsL ++ [.useProgram r.program]
            -- auto program_cleanup = MakeCleanup([]() { glUseProgram(0); });
            -- RETURN_IF_TF_ERROR(render_targets_->BindFramebuffer());
            if env.errorAt st.time then
              (glErrorStatus, none,
               evts1 ++ [.bindFramebuffer r.render_targets.frame_buffer, .useProgram 0],
               {st with activeProgram := 0, time := st.time + 1})
            else
              let st := {st with boundFramebuffer := r.render_targets.frame_buffer,
                                 time := st.time + 1}
              let evts2 := evts1 ++ [.bindFramebuffer r.render_targets.frame_buffer]
              -- RETURN_IF_GL_ERROR(glViewport(0, 0, GetWidth(), GetHeight()));
              if env.errorAt st.time then
                (glErrorStatus, none,
                 evts2 ++ [.viewport r.render_targets.width r.render_targets.height,
                           .useProgram 0],
                 {st with activeProgram := 0, time := st.time + 1})
              else
                let st := {st with viewport := (r.render_targets.width,
                                                r.render_targets.height),
                                   time := st.time + 1}
                let evts3 := evts2 ++
                  [.viewport r.render_targets.width r.render_targets.height]
                -- RETURN_IF_GL_ERROR(glClearColor(clear_r_, clear_g_, clear_b_, 1.0));
                if env.errorAt st.time then
                  (glErrorStatus, none,
                   evts3 ++ [.clearColor r.clear_r r.clear_g r.clear_b 1, .useProgram 0],
                   {st with activeProgram := 0, time := st.time + 1})
                else
                  let st := {st with clearColor := ⟨r.clear_r, r.clear_g, r.clear_b, 1⟩,
                                     time := st.time + 1}
                  let evts4 := evts3 ++ [.clearColor r.clear_r r.clear_g r.clear_b 1]
                  -- RETURN_IF_GL_ERROR(glClearDepthf(clear_depth_));
                  if env.errorAt st.time then
                    (glErrorStatus, none,
                     evts4 ++ [.clearDepthf r.clear_depth, .useProgram 0],
                     {st with activeProgram := 0, time := st.time + 1})
                  else
                    let st := {st with clearDepth := r.clear_depth, time := st.time + 1}
                    let evts5 := evts4 ++ [.clearDepthf r.clear_depth]
                    -- RETURN_IF_GL_ERROR(glClear(GL_COLOR_BUFFER_BIT | GL_DEPTH_BUFFER_BIT));
                    if env.errorAt st.time then
                      (glErrorStatus, none,
                       evts5 ++ [.clear (GL_COLOR_BUFFER_BIT + GL_DEPTH_BUFFER_BIT),
                                 .useProgram 0],
                       {st with activeProgram := 0, time := st.time + 1})
                    else
                      let wh := r.render_targets.width * r.render_targets.height
                      let st := {st with pixels := List.replicate wh st.clearColor,
                                         depth := List.replicate wh st.clearDepth,
                                         time := st.time + 1}
                      let evts6 := evts5 ++
                        [.clear (GL_COLOR_BUFFER_BIT + GL_DEPTH_BUFFER_BIT)]
                      -- RETURN_IF_GL_ERROR(glDrawArrays(GL_POINTS, 0, num_points));
                      if env.errorAt st.time then
                        (glErrorStatus, none,
                         evts6 ++ [.drawArrays GL_POINTS 0 num_points, .useProgram 0],
                         {st with activeProgram := 0, time := st.time + 1})
                      else
                        let pd := if num_points = 0 then (st.pixels, st.depth)
                                  else env.draw num_points (st.pixels, st.depth)
                        let st := {st with pixels := pd.1, depth := pd.2,
                                           time := st.time + 1}
                        let evts7 := evts6 ++ [.drawArrays GL_POINTS 0 num_points]
                        -- RETURN_IF_TF_ERROR(render_targets_->ReadPixels(result));
                        match RenderTargets.ReadPixels env r.render_targets .float
                            resultLen st with
                        | (.ok, out, evtsR, st) =>
                          -- program_cleanup.release(); return OK;
                          (.ok, out, evts7 ++ evtsR, st)
                        | (.invalidArgument m, _, evtsR, st) =>
                          (.invalidArgument m, none, evts7 ++ evtsR ++ [.useProgram 0],
                           {st with activeProgram := 0})

/-! ### Facts about the render pipeline model -/

theorem flattenRGBA_length (l : List Pixel) : (flattenRGBA l).length = 4 * l.length := by
  induction l with
  | nil => simp [flattenRGBA]
  | cons p ps ih =>
    simp [flattenRGBA, ih]
    ring

theorem flattenRGBA_get_alpha (l : List Pixel) :
    ∀ i, (flattenRGBA l).get? (4 * i + 3) = (l.get? i).map Pixel.a := by
  induction l with
  | nil =>
    intro i
    simp [flattenRGBA]
  | cons p ps ih =>
    intro i
    cases i with
    | zero => simp [flattenRGBA]
    | succ j =>
      have h4 : 4 * (j + 1) + 3 = 4 * j + 3 + 1 + 1 + 1 + 1 := by ring
      rw [h4]
      show (p.r :: p.g :: p.b :: p.a :: flattenRGBA ps).get? (4 * j + 3 + 1 + 1 + 1 + 1) =
        ((p :: ps).get? (j + 1)).map Pixel.a
      simp only [List.get?_cons_succ]
      exact ih j

theorem GetResourceProperty_clean (env : RenderEnv)
    (he : ∀ t, env.errorAt t = false) (name : String) (ifc prop : Nat)
    (st : RState) :
    Program.GetResourceProperty env name ifc prop st =
      if env.resourceIndex ifc name = GL_INVALID_INDEX then
        (.invalidArgument "GL_INVALID_INDEX", 0,
         [.getProgramResourceIndex ifc name], {st with time := st.time + 1})
      else if env.resourceLength ifc (env.resourceIndex ifc name) ≠ 1 then
        (.invalidArgument "length != num_properties", 0,
         [.getProgramResourceIndex ifc name,
          .getProgramResourceiv ifc (env.resourceIndex ifc name)],
         {st with time := st.time + 1 + 1})
      else
        (.ok, env.resourceValue ifc (env.resourceIndex ifc name) prop,
         [.getProgramResourceIndex ifc name,
          .getProgramResourceiv ifc (env.resourceIndex ifc name)],
         {st with time := st.time + 1 + 1}) := by
  simp [Program.GetResourceProperty, he, RState.tick]

theorem bindBuffersLoop_clean (env : RenderEnv)
    (he : ∀ t, env.errorAt t = false) :
    ∀ (buffers : List (String × Nat)) (st : RState),
      (Rasterizer.bindBuffersLoop env buffers st).1 = .ok ∧
      ∃ t', (Rasterizer.bindBuffersLoop env buffers st).2.2 =
        {st with time := t'} := by
  intro buffers
  induction buffers with
  | nil =>
    intro st
    exact ⟨rfl, st.time, rfl⟩
  | cons nb rest ih =>
    intro st
    obtain ⟨name, buf⟩ := nb
    by_cases hidx : env.resourceIndex GL_SHADER_STORAGE_BLOCK name = GL_INVALID_INDEX
    · have hGRP : Program.GetResourceProperty env name GL_SHADER_STORAGE_BLOCK
          GL_BUFFER_BINDING st =
          (.invalidArgument "GL_INVALID_INDEX", 0,
           [.getProgramResourceIndex GL_SHADER_STORAGE_BLOCK name],
           {st with time := st.time + 1}) := by
        rw [GetResourceProperty_clean env he, if_pos hidx]
      rcases hres : Rasterizer.bindBuffersLoop env rest {st with time := st.time + 1}
        with ⟨s, evts3, st'⟩
      have hih := ih {st with time := st.time + 1}
      rw [hres] at hih
      obtain ⟨hs, t', ht⟩ := hih
      simp only [Rasterizer.bindBuffersLoop, hGRP, hres]
      exact ⟨hs, t', ht⟩
    · by_cases hlen : env.resourceLength GL_SHADER_STORAGE_BLOCK
          (env.resourceIndex GL_SHADER_STORAGE_BLOCK name) = 1
      · have hlen' : ¬ (env.resourceLength GL_SHADER_STORAGE_BLOCK
            (env.resourceIndex GL_SHADER_STORAGE_BLOCK name) ≠ 1) := by
          simp [hlen]
        have hGRP : Program.GetResourceProperty env name GL_SHADER_STORAGE_BLOCK
            GL_BUFFER_BINDING st =
            (.ok, env.resourceValue GL_SHADER_STORAGE_BLOCK
               (env.resourceIndex GL_SHADER_STORAGE_BLOCK name) GL_BUFFER_BINDING,
             [.getProgramResourceIndex GL_SHADER_STORAGE_BLOCK name,
              .getProgramResourceiv GL_SHADER_STORAGE_BLOCK
                (env.resourceIndex GL_SHADER_STORAGE_BLOCK name)],
             {st with time := st.time + 1 + 1}) := by
          rw [GetResourceProperty_clean env he, if_neg hidx, if_neg hlen']
        have hBB : ShaderStorageBuffer.BindBufferBase env buf
            (env.resourceValue GL_SHADER_STORAGE_BLOCK
              (env.resourceIndex GL_SHADER_STORAGE_BLOCK name) GL_BUFFER_BINDING)
            {st with time := st.time + 1 + 1} =
            (.ok, [.bindBufferBase (env.resourceValue GL_SHADER_STORAGE_BLOCK
               (env.resourceIndex GL_SHADER_STORAGE_BLOCK name) GL_BUFFER_BINDING) buf],
             {st with time := st.time + 1 + 1 + 1}) := by
          simp [ShaderStorageBuffer.BindBufferBase, he, RState.tick]
        rcases hres : Rasterizer.bindBuffersLoop env rest
          {st with time := st.time + 1 + 1 + 1} with ⟨s, evts3, st'⟩
        have hih := ih {st with time := st.time + 1 + 1 + 1}
        rw [hres] at hih
        obtain ⟨hs, t', ht⟩ := hih
        simp only [Rasterizer.bindBuffersLoop, hGRP, hBB, hres]
        exact ⟨hs, t', ht⟩
      · have hlen' : env.resourceLength GL_SHADER_STORAGE_BLOCK
            (env.resourceIndex GL_SHADER_STORAGE_BLOCK name) ≠ 1 := hlen
        have hGRP : Program.GetResourceProperty env name GL_SHADER_STORAGE_BLOCK
            GL_BUFFER_BINDING st =
            (.invalidArgument "length != num_properties", 0,
             [.getProgramResourceIndex GL_SHADER_STORAGE_BLOCK name,
              .getProgramResourceiv GL_SHADER_STORAGE_BLOCK
                (env.resourceIndex GL_SHADER_STORAGE_BLOCK name)],
             {st with time := st.time + 1 + 1}) := by
          rw [GetResourceProperty_clean env he, if_neg hidx, if_pos hlen']
        rcases hres : Rasterizer.bindBuffersLoop env rest
          {st with time := st.time + 1 + 1} with ⟨s, evts3, st'⟩
        have hih := ih {st with time := st.time + 1 + 1}
        rw [hres] at hih
        obtain ⟨hs, t', ht⟩ := hih
        simp only [Rasterizer.bindBuffersLoop, hGRP, hres]
        exact ⟨hs, t', ht⟩

theorem bindBuffersLoop_no_bind (env : RenderEnv)
    (he : ∀ t, env.errorAt t = false) (h : Nat) :
    ∀ (buffers : List (String × Nat)) (st : RState),
      (∀ p ∈ buffers, p.2 = h →
        env.resourceIndex GL_SHADER_STORAGE_BLOCK p.1 = GL_INVALID_INDEX) →
      ∀ slot, GLEvt.bindBufferBase slot h ∉
        (Rasterizer.bindBuffersLoop env buffers st).2.1 := by
  intro buffers
  induction buffers with
  | nil =>
    intro st _ slot
    simp [Rasterizer.bindBuffersLoop]
  | cons nb rest ih =>
    intro st hbuf slot
    obtain ⟨name, buf⟩ := nb
    by_cases hidx : env.resourceIndex GL_SHADER_STORAGE_BLOCK name = GL_INVALID_INDEX
    · have hGRP : Program.GetResourceProperty env name GL_SHADER_STORAGE_BLOCK
          GL_BUFFER_BINDING st =
          (.invalidArgument "GL_INVALID_INDEX", 0,
           [.getProgramResourceIndex GL_SHADER_STORAGE_BLOCK name],
           {st with time := st.time + 1}) := by
        rw [GetResourceProperty_clean env he, if_pos hidx]
      rcases hres : Rasterizer.bindBuffersLoop env rest {st with time := st.time + 1}
        with ⟨s, evts3, st'⟩
      have hih := ih {st with time := st.time + 1}
        (fun p hp => hbuf p (List.mem_cons_of_mem _ hp)) slot
      rw [hres] at hih
      simp only [Rasterizer.bindBuffersLoop, hGRP, hres]
      intro hc
      rcases List.mem_append.mp hc with hc | hc
      · simp at hc
      · exact hih hc
    · have hbufne : buf ≠ h :=
        fun hEq => hidx (hbuf (name, buf) (List.mem_cons_self _ _) hEq)
      by_cases hlen : env.resourceLength GL_SHADER_STORAGE_BLOCK
          (env.resourceIndex GL_SHADER_STORAGE_BLOCK name) = 1
      · have hlen' : ¬ (env.resourceLength GL_SHADER_STORAGE_BLOCK
            (env.resourceIndex GL_SHADER_STORAGE_BLOCK name) ≠ 1) := by
          simp [hlen]
        have hGRP : Program.GetResourceProperty env name GL_SHADER_STORAGE_BLOCK
            GL_BUFFER_BINDING st =
            (.ok, env.resourceValue GL_SHADER_STORAGE_BLOCK
               (env.resourceIndex GL_SHADER_STORAGE_BLOCK name) GL_BUFFER_BINDING,
             [.getProgramResourceIndex GL_SHADER_STORAGE_BLOCK name,
              .getProgramResourceiv GL_SHADER_STORAGE_BLOCK
                (env.resourceIndex GL_SHADER_STORAGE_BLOCK name)],
             {st with time := st.time + 1 + 1}) := by
          rw [GetResourceProperty_clean env he, if_neg hidx, if_neg hlen']
        have hBB : ShaderStorageBuffer.BindBufferBase env buf
            (env.resourceValue GL_SHADER_STORAGE_BLOCK
              (env.resourceIndex GL_SHADER_STORAGE_BLOCK name) GL_BUFFER_BINDING)
            {st with time := st.time + 1 + 1} =
            (.ok, [.bindBufferBase (env.resourceValue GL_SHADER_STORAGE_BLOCK
               (env.resourceIndex GL_SHADER_STORAGE_BLOCK name) GL_BUFFER_BINDING) buf],
             {st with time := st.time + 1 + 1 + 1}) := by
          simp [ShaderStorageBuffer.BindBufferBase, he, RState.tick]
        rcases hres : Rasterizer.bindBuffersLoop env rest
          {st with time := st.time + 1 + 1 + 1} with ⟨s, evts3, st'⟩
        have hih := ih {st with time := st.time + 1 + 1 + 1}
          (fun p hp => hbuf p (List.mem_cons_of_mem _ hp)) slot
        rw [hres] at hih
        simp only [Rasterizer.bindBuffersLoop, hGRP, hBB, hres]
        intro hc
        rcases List.mem_append.mp hc with hc | hc
        · simp at hc
          exact hbufne hc.2.symm
        · exact hih hc
      · have hlen' : env.resourceLength GL_SHADER_STORAGE_BLOCK
            (env.resourceIndex GL_SHADER_STORAGE_BLOCK name) ≠ 1 := hlen
        have hGRP : Program.GetResourceProperty env name GL_SHADER_STORAGE_BLOCK
            GL_BUFFER_BINDING st =
            (.invalidArgument "length != num_properties", 0,
             [.getProgramResourceIndex GL_SHADER_STORAGE_BLOCK name,
              .getProgramResourceiv GL_SHADER_STORAGE_BLOCK
                (env.resourceIndex GL_SHADER_STORAGE_BLOCK name)],
             {st with time := st.time + 1 + 1}) := by
          rw [GetResourceProperty_clean env he, if_neg hidx, if_pos hlen']
        rcases hres : Rasterizer.bindBuffersLoop env rest
          {st with time := st.time + 1 + 1} with ⟨s, evts3, st'⟩
        have hih := ih {st with time := st.time + 1 + 1}
          (fun p hp => hbuf p (List.mem_cons_of_mem _ hp)) slot
        rw [hres] at hih
        simp only [Rasterizer.bindBuffersLoop, hGRP, hres]
        intro hc
        rcases List.mem_append.mp hc with hc | hc
        · simp at hc
        · exact hih hc

/-- The framebuffer color contents right after `Rasterizer::Render`'s clear:
every pixel holds the stored clear color with alpha hard-coded to 1.0. -/
def Rasterizer.clearedPixels (r : RasterizerM) : List Pixel :=
  List.replicate (r.render_targets.width * r.render_targets.height)
    ⟨r.clear_r, r.clear_g, r.clear_b, 1⟩

/-- The depth buffer contents right after the clear. -/
def Rasterizer.clearedDepth (r : RasterizerM) : List ℚ :=
  List.replicate (r.render_targets.width * r.render_targets.height) r.clear_depth

/-- The framebuffer color contents after the draw call of
`Rasterizer::Render`: a zero-count draw writes nothing; a positive-count draw
transforms the cleared buffers through the driver/shader oracle. -/
def Rasterizer.pixelsAfterDraw (env : RenderEnv) (r : RasterizerM)
    (num_points : Nat) : List Pixel :=
  if num_points = 0 then Rasterizer.clearedPixels r
  else (env.draw num_points (Rasterizer.clearedPixels r, Rasterizer.clearedDepth r)).1

set_option maxHeartbeats 1600000 in
theorem Render_clean (env : RenderEnv) (r : RasterizerM) (n len : Nat) (st : RState)
    (he : ∀ t, env.errorAt t = false)
    (hlen : len = r.render_targets.width * r.render_targets.height * 4) :
    (Rasterizer.Render env r n len st).1 = .ok ∧
    (Rasterizer.Render env r n len st).2.1 =
      some ((flattenRGBA (Rasterizer.pixelsAfterDraw env r n)).map (env.convert .float)) ∧
    GLEvt.clearColor r.clear_r r.clear_g r.clear_b 1 ∈
      (Rasterizer.Render env r n len st).2.2.1 ∧
    (∀ slot buf,
      GLEvt.bindBufferBase slot buf ∈ (Rasterizer.Render env r n len st).2.2.1 →
      GLEvt.bindBufferBase slot buf ∈
        (Rasterizer.bindBuffersLoop env r.shader_storage_buffers {st with blend := false, depthTest := true, cullFace := false, time := st.time + 1 + 1 + 1}).2.1) := by
  have hcl := bindBuffersLoop_clean env he r.shader_storage_buffers
    {st with blend := false, depthTest := true, cullFace := false, time := st.time + 1 + 1 + 1}
  rcases hL : Rasterizer.bindBuffersLoop env r.shader_storage_buffers
    {st with blend := false, depthTest := true, cullFace := false, time := st.time + 1 + 1 + 1}
    with ⟨s, evtsL, stL⟩
  rw [hL] at hcl
  obtain ⟨hs, t', ht⟩ := hcl
  dsimp only at hs ht
  subst ht
  cases s with
  | invalidArgument m => simp at hs
  | ok =>
    by_cases hn : n = 0 <;>
      (simp only [Rasterizer.Render, he, Bool.false_eq_true, if_false, hL,
        RenderTargets.ReadPixels, RenderTargets.ReadPixelsValidPixelType,
        RState.tick, hlen, hn, Rasterizer.pixelsAfterDraw, Rasterizer.clearedPixels,
        Rasterizer.clearedDepth, ite_true, ite_false, ne_eq, not_true_eq_false,
        if_true]
       refine ⟨?_, ?_, ?_, ?_⟩)
    · simp
    · simp
    · simp
    · intro slot buf hmem
      simp at hmem
      exact hmem
    · simp
    · simp
    · simp
    · intro slot buf hmem
      simp at hmem
      exact hmem

theorem flattenRGBA_get_red (l : List Pixel) :
    ∀ i, (flattenRGBA l).get? (4 * i) = (l.get? i).map Pixel.r := by
  induction l with
  | nil =>
    intro i
    simp [flattenRGBA]
  | cons p ps ih =>
    intro i
    cases i with
    | zero => simp [flattenRGBA]
    | succ j =>
      have h4 : 4 * (j + 1) = 4 * j + 1 + 1 + 1 + 1 := by ring
      rw [h4]
      show (p.r :: p.g :: p.b :: p.a :: flattenRGBA ps).get? (4 * j + 1 + 1 + 1 + 1) =
        ((p :: ps).get? (j + 1)).map Pixel.r
      simp only [List.get?_cons_succ]
      exact ih j

theorem flattenRGBA_get_green (l : List Pixel) :
    ∀ i, (flattenRGBA l).get? (4 * i + 1) = (l.get? i).map Pixel.g := by
  induction l with
  | nil =>
    intro i
    simp [flattenRGBA]
  | cons p ps ih =>
    intro i
    cases i with
    | zero => simp [flattenRGBA]
    | succ j =>
      have h4 : 4 * (j + 1) + 1 = 4 * j + 1 + 1 + 1 + 1 + 1 := by ring
      rw [h4]
      show (p.r :: p.g :: p.b :: p.a :: flattenRGBA ps).get? (4 * j + 1 + 1 + 1 + 1 + 1) =
        ((p :: ps).get? (j + 1)).map Pixel.g
      simp only [List.get?_cons_succ]
      exact ih j

theorem flattenRGBA_get_blue (l : List Pixel) :
    ∀ i, (flattenRGBA l).get? (4 * i + 2) = (l.get? i).map Pixel.b := by
  induction l with
  | nil =>
    intro i
    simp [flattenRGBA]
  | cons p ps ih =>
    intro i
    cases i with
    | zero => simp [flattenRGBA]
    | succ j =>
      have h4 : 4 * (j + 1) + 2 = 4 * j + 2 + 1 + 1 + 1 + 1 := by ring
      rw [h4]
      show (p.r :: p.g :: p.b :: p.a :: flattenRGBA ps).get? (4 * j + 2 + 1 + 1 + 1 + 1) =
        ((p :: ps).get? (j + 1)).map Pixel.b
      simp only [List.get?_cons_succ]
      exact ih j

theorem replicate_get_lt {α : Type} (x : α) :
    ∀ (n i : Nat), i < n → (List.replicate n x).get? i = some x := by
  intro n
  induction n with
  | zero =>
    intro i h
    omega
  | succ m ih =>
    intro i h
    cases i with
    | zero => rfl
    | succ j => exact ih j (by omega)

/-- Driver environment for the clear-fill analysis: no GL errors, no active
resources, zero-count draws leave the framebuffer unchanged (any `draw` would
do for a zero-count call, which never reaches it), float readback is exact. -/
def c7env : RenderEnv :=
  { errorAt := fun _ => false, resourceIndex := fun _ _ => GL_INVALID_INDEX,
    resourceLength := fun _ _ => 1, resourceValue := fun _ _ _ => 0,
    draw := fun _ pd => pd, convert := fun _ q => q }

/-- A 1x1 rasterizer with clear color (0.1, 0.2, 0.3) and clear depth 0.5. -/
def c7rast : RasterizerM :=
  { program := 1, render_targets := ⟨1, 1, 1, 2, 3⟩, shader_storage_buffers := [],
    clear_r := 1/10, clear_g := 1/5, clear_b := 3/10, clear_depth := 1/2 }

/-- An arbitrary initial GL state for the 1x1 render. -/
def c7st : RState :=
  { pixels := [⟨0, 0, 0, 0⟩], depth := [0], clearColor := ⟨0, 0, 0, 0⟩,
    clearDepth := 0, activeProgram := 0, boundFramebuffer := 0, viewport := (0, 0),
    blend := true, depthTest := false, cullFace := true, time := 0 }

/-- **C7, counterexample.**  Rendering `num_points = 0` with clear color
(0.1, 0.2, 0.3) and clear depth 0.5 succeeds and yields the single output
element (0.1, 0.2, 0.3, 1.0): channel 3 reads back 1.0 — the hard-coded clear
alpha — and not the configured clear depth 0.5.  This refutes "channel 3
equals the configured clear depth after readback format conversion". -/
theorem render_clear_depth_alpha_counterexample :
    (Rasterizer.Render c7env c7rast 0 4 c7st).1 = .ok ∧
    (Rasterizer.Render c7env c7rast 0 4 c7st).2.1 =
      some [1/10, 1/5, 3/10, 1] ∧
    c7rast.clear_depth = 1/2 ∧ ((1 : ℚ) ≠ 1/2) := by
  obtain ⟨hok, hout, -, -⟩ := Render_clean c7env c7rast 0 4 c7st (fun _ => rfl) rfl
  refine ⟨hok, ?_, rfl, by norm_num⟩
  rw [hout]
  rfl

/-- **C7 (amended).** Rendering with `num_points = 0` produces a result buffer
filled everywhere with the configured clear color in channels 0–2 and with the
constant 1.0 in channel 3: `glClearColor(clear_r_, clear_g_, clear_b_, 1.0)`
hard-codes the cleared alpha, and the readback reads the color buffer, so
channel 3 equals the configured clear depth only in the special case
`clear_depth = 1.0` (as in the spec's example). -/
theorem render_zero_points_clear_fill (env : RenderEnv) (r : RasterizerM)
    (len : Nat) (st : RState) (he : ∀ t, env.errorAt t = false)
    (hconv : env.convert .float = fun q => q)
    (hlen : len = r.render_targets.width * r.render_targets.height * 4) :
    (Rasterizer.Render env r 0 len st).1 = .ok ∧
    (Rasterizer.Render env r 0 len st).2.1 =
      some (flattenRGBA (List.replicate
        (r.render_targets.width * r.render_targets.height)
        ⟨r.clear_r, r.clear_g, r.clear_b, 1⟩)) ∧
    (∀ i, i < r.render_targets.width * r.render_targets.height →
      ∃ out, (Rasterizer.Render env r 0 len st).2.1 = some out ∧
        out.get? (4 * i) = some r.clear_r ∧
        out.get? (4 * i + 1) = some r.clear_g ∧
        out.get? (4 * i + 2) = some r.clear_b ∧
        out.get? (4 * i + 3) = some 1) := by
  obtain ⟨hok, hout, -, -⟩ := Render_clean env r 0 len st he hlen
  have hpad : Rasterizer.pixelsAfterDraw env r 0 = Rasterizer.clearedPixels r := by
    simp [Rasterizer.pixelsAfterDraw]
  rw [hpad, hconv] at hout
  simp only [List.map_id'] at hout
  refine ⟨hok, hout, ?_⟩
  intro i hi
  refine ⟨_, hout, ?_, ?_, ?_, ?_⟩
  · rw [flattenRGBA_get_red, Rasterizer.clearedPixels, replicate_get_lt _ _ _ hi]
    rfl
  · rw [flattenRGBA_get_green, Rasterizer.clearedPixels, replicate_get_lt _ _ _ hi]
    rfl
  · rw [flattenRGBA_get_blue, Rasterizer.clearedPixels, replicate_get_lt _ _ _ hi]
    rfl
  · rw [flattenRGBA_get_alpha, Rasterizer.clearedPixels, replicate_get_lt _ _ _ hi]
    rfl

/-- Witness for `render_zero_points_clear_fill` at a concrete rasterizer. -/
theorem render_zero_points_clear_fill_witness :
    (Rasterizer.Render c7env c7rast 0 4 c7st).1 = .ok ∧
    (Rasterizer.Render c7env c7rast 0 4 c7st).2.1 =
      some (flattenRGBA (List.replicate 1 ⟨1/10, 1/5, 3/10, 1⟩)) :=
  ⟨(render_zero_points_clear_fill c7env c7rast 4 c7st (fun _ => rfl) rfl rfl).1,
   (render_zero_points_clear_fill c7env c7rast 4 c7st (fun _ => rfl) rfl rfl).2.1⟩

/-- **C10.** `Rasterizer::Render` always clears the alpha component of the
color buffer to the constant 1.0: the stored clear parameters configure only
red, green, blue, and depth, and the issued call is
`glClearColor(clear_r_, clear_g_, clear_b_, 1.0)` — witnessed by the recorded
event — so for every choice of the construction parameters, every pixel that
the draw call leaves untouched (not covered by drawn geometry) reads back
alpha 1.0. -/
theorem render_alpha_hardcoded_one (env : RenderEnv) (r : RasterizerM)
    (n len i : Nat) (st : RState)
    (he : ∀ t, env.errorAt t = false)
    (hconv : env.convert .float 1 = 1)
    (hlen : len = r.render_targets.width * r.render_targets.height * 4)
    (hi : i < r.render_targets.width * r.render_targets.height)
    (huncovered : (Rasterizer.pixelsAfterDraw env r n).get? i =
      (Rasterizer.clearedPixels r).get? i) :
    GLEvt.clearColor r.clear_r r.clear_g r.clear_b 1 ∈
      (Rasterizer.Render env r n len st).2.2.1 ∧
    ∃ out, (Rasterizer.Render env r n len st).2.1 = some out ∧
      out.get? (4 * i + 3) = some 1 := by
  obtain ⟨-, hout, hcc, -⟩ := Render_clean env r n len st he hlen
  refine ⟨hcc, _, hout, ?_⟩
  rw [List.get?_map, flattenRGBA_get_alpha, huncovered, Rasterizer.clearedPixels,
    replicate_get_lt _ _ _ hi]
  simp [hconv]

/-- Witness for `render_alpha_hardcoded_one` at the concrete 1x1 rasterizer
with clear depth 0.5: the uncovered pixel's alpha reads back 1.0. -/
theorem render_alpha_hardcoded_one_witness :
    GLEvt.clearColor (1/10) (1/5) (3/10) 1 ∈
      (Rasterizer.Render c7env c7rast 0 4 c7st).2.2.1 ∧
    ∃ out, (Rasterizer.Render c7env c7rast 0 4 c7st).2.1 = some out ∧
      out.get? 3 = some 1 :=
  render_alpha_hardcoded_one c7env c7rast 0 4 0 c7st (fun _ => rfl) rfl rfl
    (by decide) rfl

/-- **C5.** For both supported element types (`uint8` and `float`),
`RenderTargets::ReadPixels` fails exactly when the supplied buffer's length
differs from `width*height*4`; otherwise it reads back, for every pixel of
the framebuffer, all four color channels in the native pixel type matching
the element type (`GL_UNSIGNED_BYTE` for `uint8`, `GL_FLOAT` for `float`),
via the driver's format conversion. -/
theorem read_pixels_contract (env : RenderEnv) (rt : RenderTargetsM)
    (elem : ElementType) (bufLen : Nat) (st : RState) :
    (bufLen ≠ rt.width * rt.height * 4 →
      RenderTargets.ReadPixels env rt elem bufLen st =
        (.invalidArgument "Buffer size is not equal to width * height * 4",
         none, [], st)) ∧
    (bufLen = rt.width * rt.height * 4 → env.errorAt st.time = false →
      st.pixels.length = rt.width * rt.height →
      ∃ out, RenderTargets.ReadPixels env rt elem bufLen st =
          (.ok, some out, [.readPixels rt.width rt.height elem.pixelType], st.tick) ∧
        out = (flattenRGBA st.pixels).map (env.convert elem.pixelType) ∧
        out.length = rt.width * rt.height * 4 ∧
        (∀ i, i < rt.width * rt.height →
          out.get? (4 * i) = ((st.pixels.get? i).map Pixel.r).map (env.convert elem.pixelType) ∧
          out.get? (4 * i + 1) = ((st.pixels.get? i).map Pixel.g).map (env.convert elem.pixelType) ∧
          out.get? (4 * i + 2) = ((st.pixels.get? i).map Pixel.b).map (env.convert elem.pixelType) ∧
          out.get? (4 * i + 3) = ((st.pixels.get? i).map Pixel.a).map (env.convert elem.pixelType))) := by
  constructor
  · intro hne
    cases elem <;>
      simp [RenderTargets.ReadPixels, RenderTargets.ReadPixelsValidPixelType,
        hne, ElementType.pixelType]
  · intro heq herr hpx
    refine ⟨(flattenRGBA st.pixels).map (env.convert elem.pixelType), ?_, rfl, ?_, ?_⟩
    · cases elem <;>
        simp [RenderTargets.ReadPixels, RenderTargets.ReadPixelsValidPixelType,
          heq, herr, ElementType.pixelType]
    · rw [List.length_map, flattenRGBA_length, hpx]
      ring
    · intro i _
      refine ⟨?_, ?_, ?_, ?_⟩
      · rw [List.get?_map, flattenRGBA_get_red]
      · rw [List.get?_map, flattenRGBA_get_green]
      · rw [List.get?_map, flattenRGBA_get_blue]
      · rw [List.get?_map, flattenRGBA_get_alpha]

/-- Witness for `read_pixels_contract`: a 1x1 float target with a one-pixel
framebuffer, exercised with a wrong-size buffer (length 3) and the right-size
buffer (length 4). -/
theorem read_pixels_contract_witness :
    (RenderTargets.ReadPixels c7env ⟨1, 1, 1, 2, 3⟩ .float 3 c7st).1 =
      .invalidArgument "Buffer size is not equal to width * height * 4" ∧
    ∃ out, RenderTargets.ReadPixels c7env ⟨1, 1, 1, 2, 3⟩ .float 4 c7st =
        (.ok, some out, [.readPixels 1 1 PixelType.float], c7st.tick) ∧
      out = (flattenRGBA c7st.pixels).map (c7env.convert PixelType.float) := by
  constructor
  · rw [(read_pixels_contract c7env ⟨1, 1, 1, 2, 3⟩ .float 3 c7st).1 (by decide)]
  · obtain ⟨out, h1, h2, -⟩ :=
      (read_pixels_contract c7env ⟨1, 1, 1, 2, 3⟩ .float 4 c7st).2 rfl rfl rfl
    exact ⟨out, h1, h2⟩

theorem GetResourceProperty_inactive_ne_ok (env : RenderEnv) (name : String)
    (ifc prop : Nat) (st : RState)
    (hidx : env.resourceIndex ifc name = GL_INVALID_INDEX) :
    (Program.GetResourceProperty env name ifc prop st).1 ≠ .ok := by
  simp only [Program.GetResourceProperty]
  by_cases hf : env.errorAt st.time
  · simp [hf, glErrorStatus]
  · simp [hf, hidx]

theorem SetUniformMatrix_inactive_ne_ok (env : RenderEnv) (r : RasterizerM)
    (name : String) (nc nr : Nat) (tr : Bool) (matrix : List ℚ) (st : RState)
    (hidx : env.resourceIndex GL_UNIFORM name = GL_INVALID_INDEX) :
    (Rasterizer.SetUniformMatrix env r name nc nr tr matrix st).1 ≠ .ok := by
  by_cases hsz : nr * nc ≠ matrix.length
  · simp [Rasterizer.SetUniformMatrix, hsz]
  · rcases hG : Program.GetResourceProperty env name GL_UNIFORM GL_TYPE st
      with ⟨s, v, evts, st'⟩
    have hne := GetResourceProperty_inactive_ne_ok env name GL_UNIFORM GL_TYPE st hidx
    rw [hG] at hne
    cases s with
    | ok => exact absurd rfl hne
    | invalidArgument m =>
      simp [Rasterizer.SetUniformMatrix, hsz, hG]

theorem SetUniformMatrix_inactive_clean (env : RenderEnv) (r : RasterizerM)
    (name : String) (nc nr : Nat) (tr : Bool) (matrix : List ℚ) (st : RState)
    (he : ∀ t, env.errorAt t = false) (hsz : nr * nc = matrix.length)
    (hidx : env.resourceIndex GL_UNIFORM name = GL_INVALID_INDEX) :
    (Rasterizer.SetUniformMatrix env r name nc nr tr matrix st).1 =
      .invalidArgument "GL_INVALID_INDEX" := by
  have hG : Program.GetResourceProperty env name GL_UNIFORM GL_TYPE st =
      (.invalidArgument "GL_INVALID_INDEX", 0,
       [.getProgramResourceIndex GL_UNIFORM name], {st with time := st.time + 1}) := by
    rw [GetResourceProperty_clean env he, if_pos hidx]
  have hsz' : ¬ (nr * nc ≠ matrix.length) := by simp [hsz]
  simp [Rasterizer.SetUniformMatrix, hsz', hG]

/-- **C4.** Unmatched resource names are treated asymmetrically.  (1) During
`Render`, a held storage buffer whose name does not match an active
shader-storage block is silently skipped: `Render` still succeeds (given the
driver raises no GL errors and the result buffer is correctly sized), and no
`glBindBufferBase` call for that buffer's handle is issued.  (2)
`SetUniformMatrix` with a name that is not an active uniform never succeeds,
and in a driver-error-free run with a size-consistent matrix its error is
exactly the `GL_INVALID_INDEX` invalid-argument failure. -/
theorem unmatched_names_asymmetry :
    (∀ (env : RenderEnv) (r : RasterizerM) (n len h : Nat) (st : RState),
      (∀ t, env.errorAt t = false) →
      len = r.render_targets.width * r.render_targets.height * 4 →
      (∀ p ∈ r.shader_storage_buffers, p.2 = h →
        env.resourceIndex GL_SHADER_STORAGE_BLOCK p.1 = GL_INVALID_INDEX) →
      (Rasterizer.Render env r n len st).1 = .ok ∧
      ∀ slot, GLEvt.bindBufferBase slot h ∉
        (Rasterizer.Render env r n len st).2.2.1) ∧
    (∀ (env : RenderEnv) (r : RasterizerM) (name : String) (nc nr : Nat)
        (tr : Bool) (matrix : List ℚ) (st : RState),
      env.resourceIndex GL_UNIFORM name = GL_INVALID_INDEX →
      (Rasterizer.SetUniformMatrix env r name nc nr tr matrix st).1 ≠ .ok ∧
      ((∀ t, env.errorAt t = false) → nr * nc = matrix.length →
        (Rasterizer.SetUniformMatrix env r name nc nr tr matrix st).1 =
          .invalidArgument "GL_INVALID_INDEX")) := by
  constructor
  · intro env r n len h st he hlen hunmatched
    obtain ⟨hok, -, -, hbind⟩ := Render_clean env r n len st he hlen
    refine ⟨hok, ?_⟩
    intro slot hmem
    exact bindBuffersLoop_no_bind env he h r.shader_storage_buffers
      {st with blend := false, depthTest := true, cullFace := false, time := st.time + 1 + 1 + 1}
      hunmatched slot (hbind slot h hmem)
  · intro env r name nc nr tr matrix st hidx
    exact ⟨SetUniformMatrix_inactive_ne_ok env r name nc nr tr matrix st hidx,
           fun he hsz =>
             SetUniformMatrix_inactive_clean env r name nc nr tr matrix st he hsz hidx⟩

/-- A rasterizer holding one storage buffer under a name that matches no
active shader-storage block. -/
def c4rast : RasterizerM :=
  { c7rast with shader_storage_buffers := [("orphan", 7)] }

/-- Witness for `unmatched_names_asymmetry` at a concrete rasterizer: the
render with the orphan buffer succeeds without binding buffer 7, while
setting a uniform under an inactive name fails with `GL_INVALID_INDEX`. -/
theorem unmatched_names_asymmetry_witness :
    ((Rasterizer.Render c7env c4rast 0 4 c7st).1 = .ok ∧
      ∀ slot, GLEvt.bindBufferBase slot 7 ∉
        (Rasterizer.Render c7env c4rast 0 4 c7st).2.2.1) ∧
    (Rasterizer.SetUniformMatrix c7env c4rast "view_projection_matrix" 4 4 false
        (List.replicate 16 0) c7st).1 = .invalidArgument "GL_INVALID_INDEX" := by
  constructor
  · exact unmatched_names_asymmetry.1 c7env c4rast 0 4 7 c7st (fun _ => rfl) rfl
      (fun p _ _ => rfl)
  · exact (unmatched_names_asymmetry.2 c7env c4rast "view_projection_matrix" 4 4
      false (List.replicate 16 0) c7st rfl).2 (fun _ => rfl) (by simp)

theorem type_mapping_not_invalid {t : Int} {p : Nat × Nat}
    (h : type_mapping t = some p) :
    ¬ (t % 4294967296 = (GL_INVALID_INDEX : Int)) := by
  unfold type_mapping at h
  split_ifs at h with h1 h2 h3 h4 h5 h6 h7 h8 h9
  · subst h1
    decide
  · subst h2
    decide
  · subst h3
    decide
  · subst h4
    decide
  · subst h5
    decide
  · subst h6
    decide
  · subst h7
    decide
  · subst h8
    decide
  · subst h9
    decide

/-- Evaluation of `SetUniformMatrix` under a driver-error-free environment,
with a size-consistent matrix, an active uniform name, and a consistent
introspection length: only the type-based checks remain. -/
theorem SetUniformMatrix_clean_active (env : RenderEnv) (r : RasterizerM)
    (name : String) (nc nr : Nat) (tr : Bool) (matrix : List ℚ) (st : RState)
    (he : ∀ t, env.errorAt t = false) (hsz : nr * nc = matrix.length)
    (hidx : env.resourceIndex GL_UNIFORM name ≠ GL_INVALID_INDEX)
    (hlen : env.resourceLength GL_UNIFORM (env.resourceIndex GL_UNIFORM name) = 1) :
    Rasterizer.SetUniformMatrix env r name nc nr tr matrix st =
      (if (env.resourceValue GL_UNIFORM (env.resourceIndex GL_UNIFORM name) GL_TYPE) %
          4294967296 = (GL_INVALID_INDEX : Int) then
        (.invalidArgument "GL_INVALID_INDEX",
         [.getProgramResourceIndex GL_UNIFORM name,
          .getProgramResourceiv GL_UNIFORM (env.resourceIndex GL_UNIFORM name)],
         {st with time := st.time + 1 + 1})
      else
        match type_mapping (env.resourceValue GL_UNIFORM
            (env.resourceIndex GL_UNIFORM name) GL_TYPE) with
        | none =>
          (.invalidArgument "Unsupported type",
           [.getProgramResourceIndex GL_UNIFORM name,
            .getProgramResourceiv GL_UNIFORM (env.resourceIndex GL_UNIFORM name)],
           {st with time := st.time + 1 + 1})
        | some (cols, rows) =>
          if cols ≠ nc ∨ rows ≠ nr then
            (.invalidArgument "Invalid dimensions",
             [.getProgramResourceIndex GL_UNIFORM name,
              .getProgramResourceiv GL_UNIFORM (env.resourceIndex GL_UNIFORM name)],
             {st with time := st.time + 1 + 1})
          else
            (.ok,
             [.getProgramResourceIndex GL_UNIFORM name,
              .getProgramResourceiv GL_UNIFORM (env.resourceIndex GL_UNIFORM name)] ++
             [.getProgramResourceIndex GL_UNIFORM name,
              .getProgramResourceiv GL_UNIFORM (env.resourceIndex GL_UNIFORM name)] ++
             [.useProgram r.program,
              .uniformMatrix cols rows
                (env.resourceValue GL_UNIFORM (env.resourceIndex GL_UNIFORM name)
                  GL_LOCATION) 1 tr matrix,
              .useProgram 0],
             {st with activeProgram := 0, time := st.time + 1 + 1 + 1 + 1 + 1 + 1})) := by
  have hlen' : ¬ (env.resourceLength GL_UNIFORM
      (env.resourceIndex GL_UNIFORM name) ≠ 1) := by simp [hlen]
  have hG1 : Program.GetResourceProperty env name GL_UNIFORM GL_TYPE st =
      (.ok, env.resourceValue GL_UNIFORM (env.resourceIndex GL_UNIFORM name) GL_TYPE,
       [.getProgramResourceIndex GL_UNIFORM name,
        .getProgramResourceiv GL_UNIFORM (env.resourceIndex GL_UNIFORM name)],
       {st with time := st.time + 1 + 1}) := by
    rw [GetResourceProperty_clean env he, if_neg hidx, if_neg hlen']
  have hG2 : Program.GetResourceProperty env name GL_UNIFORM GL_LOCATION
      {st with time := st.time + 1 + 1} =
      (.ok, env.resourceValue GL_UNIFORM (env.resourceIndex GL_UNIFORM name) GL_LOCATION,
       [.getProgramResourceIndex GL_UNIFORM name,
        .getProgramResourceiv GL_UNIFORM (env.resourceIndex GL_UNIFORM name)],
       {st with time := st.time + 1 + 1 + 1 + 1}) := by
    rw [GetResourceProperty_clean env he, if_neg hidx, if_neg hlen']
  have hsz' : ¬ (nr * nc ≠ matrix.length) := by simp [hsz]
  simp only [Rasterizer.SetUniformMatrix, hsz', ite_false, ite_true, hG1, hG2, he,
    Bool.false_eq_true, if_false, ne_eq, not_true_eq_false, not_false_eq_true,
    if_neg, reduceIte]

/-- **C6.** The `SetUniformMatrix` contract: (1) it fails — touching nothing —
whenever `num_rows * num_columns != matrix.size()`; (2) for an active uniform
(in a driver-error-free run with consistent introspection), it fails with
"Invalid dimensions" when the declared matrix shape from the fixed
`type_mapping` table differs from the requested `(num_columns, num_rows)`;
(3) when every check passes it activates the program and issues exactly the
matching column-major matrix-upload call (then deactivates the program, per
the never-released cleanup); (4) the table covers 2x2 through 4x4 including
all rectangular combinations; (5) in a driver-error-free run, no
matrix-upload call is issued on any failing path. -/
theorem set_uniform_matrix_contract :
    (∀ (env : RenderEnv) (r : RasterizerM) (name : String) (nc nr : Nat)
        (tr : Bool) (matrix : List ℚ) (st : RState),
      nr * nc ≠ matrix.length →
      Rasterizer.SetUniformMatrix env r name nc nr tr matrix st =
        (.invalidArgument "num_rows * num_columns != matrix.size()", [], st)) ∧
    (∀ (env : RenderEnv) (r : RasterizerM) (name : String) (nc nr : Nat)
        (tr : Bool) (matrix : List ℚ) (st : RState) (cols rows : Nat),
      (∀ t, env.errorAt t = false) → nr * nc = matrix.length →
      env.resourceIndex GL_UNIFORM name ≠ GL_INVALID_INDEX →
      env.resourceLength GL_UNIFORM (env.resourceIndex GL_UNIFORM name) = 1 →
      type_mapping (env.resourceValue GL_UNIFORM
        (env.resourceIndex GL_UNIFORM name) GL_TYPE) = some (cols, rows) →
      (cols ≠ nc ∨ rows ≠ nr) →
      (Rasterizer.SetUniformMatrix env r name nc nr tr matrix st).1 =
        .invalidArgument "Invalid dimensions") ∧
    (∀ (env : RenderEnv) (r : RasterizerM) (name : String) (nc nr : Nat)
        (tr : Bool) (matrix : List ℚ) (st : RState),
      (∀ t, env.errorAt t = false) → nr * nc = matrix.length →
      env.resourceIndex GL_UNIFORM name ≠ GL_INVALID_INDEX →
      env.resourceLength GL_UNIFORM (env.resourceIndex GL_UNIFORM name) = 1 →
      type_mapping (env.resourceValue GL_UNIFORM
        (env.resourceIndex GL_UNIFORM name) GL_TYPE) = some (nc, nr) →
      Rasterizer.SetUniformMatrix env r name nc nr tr matrix st =
        (.ok,
         [.getProgramResourceIndex GL_UNIFORM name,
          .getProgramResourceiv GL_UNIFORM (env.resourceIndex GL_UNIFORM name)] ++
         [.getProgramResourceIndex GL_UNIFORM name,
          .getProgramResourceiv GL_UNIFORM (env.resourceIndex GL_UNIFORM name)] ++
         [.useProgram r.program,
          .uniformMatrix nc nr
            (env.resourceValue GL_UNIFORM (env.resourceIndex GL_UNIFORM name)
              GL_LOCATION) 1 tr matrix,
          .useProgram 0],
         {st with activeProgram := 0, time := st.time + 1 + 1 + 1 + 1 + 1 + 1})) ∧
    (∀ c w : Nat, 2 ≤ c → c ≤ 4 → 2 ≤ w → w ≤ 4 →
      ∃ t : Int, type_mapping t = some (c, w)) ∧
    (∀ (env : RenderEnv) (r : RasterizerM) (name : String) (nc nr : Nat)
        (tr : Bool) (matrix : List ℚ) (st : RState),
      (∀ t, env.errorAt t = false) →
      (Rasterizer.SetUniformMatrix env r name nc nr tr matrix st).1 ≠ .ok →
      ∀ (c w : Nat) (loc : Int) (cnt : Nat) (tb : Bool) (d : List ℚ),
        GLEvt.uniformMatrix c w loc cnt tb d ∉
          (Rasterizer.SetUniformMatrix env r name nc nr tr matrix st).2.1) := by
  refine ⟨?_, ?_, ?_, ?_, ?_⟩
  · intro env r name nc nr tr matrix st hsz
    simp [Rasterizer.SetUniformMatrix, hsz]
  · intro env r name nc nr tr matrix st cols rows he hsz hidx hlen hmap hdims
    rw [SetUniformMatrix_clean_active env r name nc nr tr matrix st he hsz hidx hlen,
      if_neg (type_mapping_not_invalid hmap)]
    simp only [hmap]
    rw [if_pos hdims]
  · intro env r name nc nr tr matrix st he hsz hidx hlen hmap
    rw [SetUniformMatrix_clean_active env r name nc nr tr matrix st he hsz hidx hlen,
      if_neg (type_mapping_not_invalid hmap)]
    simp only [hmap]
    rw [if_neg (by simp)]
  · intro c w hc1 hc2 hw1 hw2
    interval_cases c <;> interval_cases w
    · exact ⟨(GL_FLOAT_MAT2 : Int), by decide⟩
    · exact ⟨(GL_FLOAT_MAT2x3 : Int), by decide⟩
    · exact ⟨(GL_FLOAT_MAT2x4 : Int), by decide⟩
    · exact ⟨(GL_FLOAT_MAT3x2 : Int), by decide⟩
    · exact ⟨(GL_FLOAT_MAT3 : Int), by decide⟩
    · exact ⟨(GL_FLOAT_MAT3x4 : Int), by decide⟩
    · exact ⟨(GL_FLOAT_MAT4x2 : Int), by decide⟩
    · exact ⟨(GL_FLOAT_MAT4x3 : Int), by decide⟩
    · exact ⟨(GL_FLOAT_MAT4 : Int), by decide⟩
  · intro env r name nc nr tr matrix st he hne c w loc cnt tb d hmem
    by_cases hsz : nr * nc ≠ matrix.length
    · have hEq : Rasterizer.SetUniformMatrix env r name nc nr tr matrix st =
          (.invalidArgument "num_rows * num_columns != matrix.size()", [], st) := by
        simp [Rasterizer.SetUniformMatrix, hsz]
      rw [hEq] at hmem
      simp at hmem
    · have hsz2 : nr * nc = matrix.length := not_not.mp hsz
      by_cases hidx : env.resourceIndex GL_UNIFORM name = GL_INVALID_INDEX
      · have hG1 : Program.GetResourceProperty env name GL_UNIFORM GL_TYPE st =
            (.invalidArgument "GL_INVALID_INDEX", 0,
             [.getProgramResourceIndex GL_UNIFORM name],
             {st with time := st.time + 1}) := by
          rw [GetResourceProperty_clean env he, if_pos hidx]
        have hEq : (Rasterizer.SetUniformMatrix env r name nc nr tr matrix st).2.1 =
            [.getProgramResourceIndex GL_UNIFORM name] := by
          simp [Rasterizer.SetUniformMatrix, hsz, hG1]
        rw [hEq] at hmem
        simp at hmem
      · by_cases hlen : env.resourceLength GL_UNIFORM
            (env.resourceIndex GL_UNIFORM name) = 1
        · rw [SetUniformMatrix_clean_active env r name nc nr tr matrix st he hsz2
            hidx hlen] at hmem
          by_cases hinv : (env.resourceValue GL_UNIFORM
              (env.resourceIndex GL_UNIFORM name) GL_TYPE) % 4294967296 =
              (GL_INVALID_INDEX : Int)
          · rw [if_pos hinv] at hmem
            simp at hmem
          · rw [if_neg hinv] at hmem
            rcases hmap : type_mapping (env.resourceValue GL_UNIFORM
                (env.resourceIndex GL_UNIFORM name) GL_TYPE) with _ | ⟨cols, rows⟩
            · rw [hmap] at hmem
              simp at hmem
            · simp only [hmap] at hmem
              by_cases hdims : cols ≠ nc ∨ rows ≠ nr
              · rw [if_pos hdims] at hmem
                simp at hmem
              · push_neg at hdims
                obtain ⟨hcnc, hwnr⟩ := hdims
                subst hcnc
                subst hwnr
                have hone : (Rasterizer.SetUniformMatrix env r name cols rows tr
                    matrix st).1 = .ok := by
                  rw [SetUniformMatrix_clean_active env r name cols rows tr matrix
                    st he hsz2 hidx hlen, if_neg hinv]
                  simp only [hmap]
                  rw [if_neg (by simp)]
                exact hne hone
        · have hlen' : env.resourceLength GL_UNIFORM
              (env.resourceIndex GL_UNIFORM name) ≠ 1 := hlen
          have hG1 : Program.GetResourceProperty env name GL_UNIFORM GL_TYPE st =
              (.invalidArgument "length != num_properties", 0,
               [.getProgramResourceIndex GL_UNIFORM name,
                .getProgramResourceiv GL_UNIFORM (env.resourceIndex GL_UNIFORM name)],
               {st with time := st.time + 1 + 1}) := by
            rw [GetResourceProperty_clean env he, if_neg hidx, if_pos hlen']
          have hEq : (Rasterizer.SetUniformMatrix env r name nc nr tr matrix st).2.1 =
              [.getProgramResourceIndex GL_UNIFORM name,
               .getProgramResourceiv GL_UNIFORM (env.resourceIndex GL_UNIFORM name)] := by
            simp [Rasterizer.SetUniformMatrix, hsz, hG1]
          rw [hEq] at hmem
          simp at hmem

/-- Driver environment for the `SetUniformMatrix` witness: one active uniform
at index 5 whose declared type is `GL_FLOAT_MAT4` and whose location is 11. -/
def c6env : RenderEnv :=
  { errorAt := fun _ => false, resourceIndex := fun _ _ => 5,
    resourceLength := fun _ _ => 1,
    resourceValue := fun _ _ p => if p = GL_TYPE then (GL_FLOAT_MAT4 : Int) else 11,
    draw := fun _ pd => pd, convert := fun _ q => q }

/-- Witness for `set_uniform_matrix_contract`: the size check, a successful
4x4 upload, and a declared-shape mismatch, all at concrete inputs. -/
theorem set_uniform_matrix_contract_witness :
    (Rasterizer.SetUniformMatrix c6env c7rast "m" 4 4 false
        (List.replicate 15 0) c7st).1 =
      .invalidArgument "num_rows * num_columns != matrix.size()" ∧
    (Rasterizer.SetUniformMatrix c6env c7rast "m" 4 4 false
        (List.replicate 16 0) c7st).1 = .ok ∧
    (Rasterizer.SetUniformMatrix c6env c7rast "m" 3 3 false
        (List.replicate 9 0) c7st).1 = .invalidArgument "Invalid dimensions" := by
  refine ⟨?_, ?_, ?_⟩
  · rw [set_uniform_matrix_contract.1 c6env c7rast "m" 4 4 false
      (List.replicate 15 0) c7st (by simp)]
  · rw [set_uniform_matrix_contract.2.2.1 c6env c7rast "m" 4 4 false
      (List.replicate 16 0) c7st (fun _ => rfl) (by simp) (by decide) rfl (by decide)]
  · exact set_uniform_matrix_contract.2.1 c6env c7rast "m" 3 3 false
      (List.replicate 9 0) c7st 4 4 (fun _ => rfl) (by simp) (by decide) rfl
      (by decide) (by decide)

/-! ## Renderbuffer/framebuffer object model
(`gl_utils.h`, `RenderTargets<T>::CreateValidInternalFormat`) -/

namespace GLConst

def GL_COLOR_ATTACHMENT0 : Nat := 0x8CE0
def GL_DEPTH_ATTACHMENT : Nat := 0x8D00

end GLConst

/-- A deletion call issued during render-target creation/cleanup, tagged with
the GL entry point used. -/
inductive RTDeleteCall where
  | deleteRenderbuffers (id : Nat)
  | deleteFramebuffers (id : Nat)
deriving DecidableEq, Repr

/-- Object state for renderbuffer/framebuffer creation: live objects by kind,
the framebuffer binding, the (framebuffer, attachment point, renderbuffer)
attachments made, the GL-call clock, and the trace of deletion calls. -/
structure RTObjects where
  nextId : Nat
  renderbuffers : List Nat
  framebuffers : List Nat
  boundFramebuffer : Nat
  attachments : List (Nat × Nat × Nat)
  time : Nat
  deletes : List RTDeleteCall
deriving DecidableEq, Repr

def RTObjects.tick (st : RTObjects) : RTObjects := {st with time := st.time + 1}

/-- Driver oracle: whether `glGetError` fires after the n-th GL call. -/
structure RTEnv where
  errorAt : Nat → Bool

/-- The state effect of `glDeleteFramebuffers(1, &id)` as issued by the
cleanups (no error check): deletes `id` if it is a live framebuffer object;
per the GL specification the call *silently ignores* names that do not
correspond to framebuffer objects, so a renderbuffer name passed here is not
freed.  The call is recorded in the deletion trace. -/
def glDeleteFramebuffers (id : Nat) (st : RTObjects) : RTObjects :=
  {st with framebuffers := st.framebuffers.erase id,
           deletes := st.deletes ++ [.deleteFramebuffers id]}

/-- `RenderTargets<T>::CreateValidInternalFormat(internalformat, width,
height, render_targets)`: generate and configure a color renderbuffer, a
depth renderbuffer, and a framebuffer, attach both renderbuffers, with a
scoped cleanup armed after each `glGen*`.  All three cleanups invoke
`glDeleteFramebuffers` — including the two armed for the *renderbuffer*
names (`gen_color_cleanup`, `gen_depth_cleanup`), exactly as the source
does — and run in reverse arming order on an early error exit, and are
released on success. -/
def RenderTargets.CreateValidInternalFormat (env : RTEnv)
    (internalformat width height : Nat) (st : RTObjects) :
    TfStatus × Option RenderTargetsM × RTObjects :=
  -- RETURN_IF_GL_ERROR(glGenRenderbuffers(1, &color_buffer));
  if env.errorAt st.time then (glErrorStatus, none, st.tick)
  else
    let color_buffer := st.nextId
    let st := {st with nextId := st.nextId + 1,
                       renderbuffers := st.renderbuffers ++ [st.nextId],
                       time := st.time + 1}
    -- auto gen_color_cleanup = MakeCleanup(glDeleteFramebuffers(1, &color_buffer));
    -- RETURN_IF_GL_ERROR(glBindRenderbuffer(GL_RENDERBUFFER, color_buffer));
    if env.errorAt st.time then
      (glErrorStatus, none, glDeleteFramebuffers color_buffer st.tick)
    else
      -- RETURN_IF_GL_ERROR(glRenderbufferStorage(GL_RENDERBUFFER, internalformat, ...));
      if env.errorAt st.tick.time then
        (glErrorStatus, none, glDeleteFramebuffers color_buffer st.tick.tick)
      else
        let st := st.tick.tick
        -- RETURN_IF_GL_ERROR(glGenRenderbuffers(1, &depth_buffer));
        if env.errorAt st.time then
          (glErrorStatus, none, glDeleteFramebuffers color_buffer st.tick)
        else
          let depth_buffer := st.nextId
          let st := {st with nextId := st.nextId + 1,
                             renderbuffers := st.renderbuffers ++ [st.nextId],
                             time := st.time + 1}
          -- auto gen_depth_cleanup = MakeCleanup(glDeleteFramebuffers(1, &depth_buffer));
          -- RETURN_IF_GL_ERROR(glBindRenderbuffer(GL_RENDERBUFFER, depth_buffer));
          if env.errorAt st.time then
            (glErrorStatus, none,
             glDeleteFramebuffers color_buffer
               (glDeleteFramebuffers depth_buffer st.tick))
          else
            -- RETURN_IF_GL_ERROR(glRenderbufferStorage(GL_RENDERBUFFER, GL_DEPTH_COMPONENT24, ...));
            if env.errorAt st.tick.time then
              (glErrorStatus, none,
               glDeleteFramebuffers color_buffer
                 (glDeleteFramebuffers depth_buffer st.tick.tick))
            else
              let st := st.tick.tick
              -- RETURN_IF_GL_ERROR(glGenFramebuffers(1, &frame_buffer));
              if env.errorAt st.time then
                (glErrorStatus, none,
                 glDeleteFramebuffers color_buffer
                   (glDeleteFramebuffers depth_buffer st.tick))
              else
                let frame_buffer := st.nextId
                let st := {st with nextId := st.nextId + 1,
                                   framebuffers := st.framebuffers ++ [st.nextId],
                                   time := st.time + 1}
                -- auto gen_frame_cleanup = MakeCleanup(glDeleteFramebuffers(1, &frame_buffer));
                -- RETURN_IF_GL_ERROR(glBindFramebuffer(GL_FRAMEBUFFER, frame_buffer));
                if env.errorAt st.time then
                  (glErrorStatus, none,
                   glDeleteFramebuffers color_buffer
                     (glDeleteFramebuffers depth_buffer
                       (glDeleteFramebuffers frame_buffer st.tick)))
                else
                  let st := {st with boundFramebuffer := frame_buffer,
                                     time := st.time + 1}
                  -- RETURN_IF_GL_ERROR(glFramebufferRenderbuffer(GL_FRAMEBUFFER,
                  --     GL_COLOR_ATTACHMENT0, GL_RENDERBUFFER, color_buffer));
                  if env.errorAt st.time then
                    (glErrorStatus, none,
                     glDeleteFramebuffers color_buffer
                       (glDeleteFramebuffers depth_buffer
                         (glDeleteFramebuffers frame_buffer st.tick)))
                  else
                    let st := {st with attachments := st.attachments ++ [(st.boundFramebuffer, GL_COLOR_ATTACHMENT0, color_buffer)], time := st.time + 1}
                    -- RETURN_IF_GL_ERROR(glFramebufferRenderbuffer(GL_FRAMEBUFFER,
                    --     GL_DEPTH_ATTACHMENT, GL_RENDERBUFFER, depth_buffer));
                    if env.errorAt st.time then
                      (glErrorStatus, none,
                       glDeleteFramebuffers color_buffer
                         (glDeleteFramebuffers depth_buffer
                           (glDeleteFramebuffers frame_buffer st.tick)))
                    else
                      let st := {st with attachments := st.attachments ++ [(st.boundFramebuffer, GL_DEPTH_ATTACHMENT, depth_buffer)], time := st.time + 1}
                      -- *render_targets = ...; all three cleanups released.
                      (.ok, some ⟨width, height, color_buffer, depth_buffer,
                                  frame_buffer⟩, st)

/-- `RenderTargets<T>::Create(width, height, render_targets)` — the `uint8`
specialization uses internal format `GL_RGBA8`, the `float` specialization
`GL_RGBA32F`. -/
def RenderTargets.Create (env : RTEnv) (elem : ElementType)
    (width height : Nat) (st : RTObjects) :
    TfStatus × Option RenderTargetsM × RTObjects :=
  match elem with
  | .uint8 => RenderTargets.CreateValidInternalFormat env GL_RGBA8 width height st
  | .float => RenderTargets.CreateValidInternalFormat env GL_RGBA32F width height st

/-- An empty initial renderbuffer/framebuffer object state. -/
def c9st : RTObjects := ⟨1, [], [], 0, [], 0, []⟩

/-- The failing driver environment: `glGetError` fires after the 5th GL call —
the `glBindRenderbuffer` of the depth renderbuffer. -/
def c9env : RTEnv := ⟨fun t => t = 4⟩

/-- **C9.** When `glBindRenderbuffer` of the depth renderbuffer fails, the
scoped cleanups run — but they release the two renderbuffers with
`glDeleteFramebuffers` (a copy-paste slip: the objects were created with
`glGenRenderbuffers`), which silently ignores renderbuffer names.  So the
error is returned with both renderbuffer objects (names 1 and 2) still live:
the cleanups do *not* release every allocated resource via the deletion call
appropriate to its kind, contradicting the claim and the evident intent of
the code. -/
theorem render_targets_create_cleanup_wrong_delete :
    (RenderTargets.CreateValidInternalFormat c9env GL_RGBA32F 1 1 c9st).1 =
      glErrorStatus ∧
    (RenderTargets.CreateValidInternalFormat c9env GL_RGBA32F 1 1 c9st).2.2.renderbuffers =
      [1, 2] ∧
    (RenderTargets.CreateValidInternalFormat c9env GL_RGBA32F 1 1 c9st).2.2.deletes =
      [.deleteFramebuffers 2, .deleteFramebuffers 1] ∧
    (∀ id, RTDeleteCall.deleteRenderbuffers id ∉
      (RenderTargets.CreateValidInternalFormat c9env GL_RGBA32F 1 1 c9st).2.2.deletes) := by
  refine ⟨by decide, by decide, by decide, ?_⟩
  intro id
  simp only [show (RenderTargets.CreateValidInternalFormat c9env GL_RGBA32F 1 1 c9st).2.2.deletes =
    [.deleteFramebuffers 2, .deleteFramebuffers 1] from by decide]
  simp

/-! ## `RasterizerWithContext<T>` (`rasterizer_with_context.h`) -/

/-- The data of a `RasterizerWithContext<float>`: the owned
`EGLOffscreenContext` plus the `Rasterizer` base-class state. -/
structure RasterizerWithContext where
  egl_context : EGLOffscreenContext
  rast : RasterizerM
deriving DecidableEq, Repr

/-- `RasterizerWithContext<T>::Render(num_points, result)`: make the context
current (the call's status is *not* checked), delegate to
`Rasterizer<T>::Render`, and release the context via the scoped
`context_cleanup` on every exit path (`RETURN_FALSE_IF_ERROR` turns a
delegate failure into `false` after the cleanup has run). -/
def RasterizerWithContext.Render (eglEnv : EGLEnv) (renderEnv : RenderEnv)
    (rwc : RasterizerWithContext) (num_points resultLen : Nat)
    (est : EGLThreadState) (st : RState) :
    Bool × Option (List ℚ) × EGLThreadState × RState :=
  -- egl_context_->MakeCurrent();
  let (_, est) := rwc.egl_context.MakeCurrent eglEnv est
  -- auto context_cleanup = MakeCleanup([this]() { this->egl_context_->Release(); });
  match Rasterizer.Render renderEnv rwc.rast num_points resultLen st with
  | (.ok, out, _, st) =>
    let (_, _, est) := rwc.egl_context.Release eglEnv est
    (true, out, est, st)
  | (.invalidArgument _, out, _, st) =>
    let (_, _, est) := rwc.egl_context.Release eglEnv est
    (false, out, est, st)

/-- Summary oracles for `EGLOffscreenContext::Create` (the staged EGL
construction of `egl_offscreen_context.cc`, none of whose internal steps are
under claim here): whether the staged construction succeeds, and the native
handles it produces. -/
structure EGLCreateEnv where
  createOk : Bool
  newContext : Nat
  newDisplay : Nat
  newSurface : Nat

/-- `EGLOffscreenContext::Create`: either the staged construction fails (all
partially created EGL resources released by its scoped cleanups) or it yields
a context object; the code rejects an `EGL_NO_CONTEXT` handle, so a
constructed object always carries a non-null context handle. -/
def EGLOffscreenContext.Create (cenv : EGLCreateEnv) :
    TfStatus × Option EGLOffscreenContext :=
  if cenv.createOk then
    if cenv.newContext = EGL_NO_CONTEXT then
      (.invalidArgument "EGL_NO_CONTEXT", none)
    else
      (.ok, some ⟨cenv.newContext, cenv.newDisplay, cenv.newSurface⟩)
  else
    (.invalidArgument "EGL ERROR", none)

/-- `RasterizerWithContext<T>::~RasterizerWithContext`: make the context
current — if that fails, log to `std::cerr` and *continue* — then
`this->Reset()` (which destroys the program, the render target, and every
storage buffer, issuing their GPU deletion calls, recorded here by handle),
then destroy `egl_context_` (which runs `EGLOffscreenContext::Release` and
the EGL teardown, aborting the process if any of those steps fails). -/
def RasterizerWithContext.destroy (eglEnv : EGLEnv)
    (rwc : RasterizerWithContext) (est : EGLThreadState) : DtorOutcome :=
  -- bool status = egl_context_->MakeCurrent();
  let (s, est) := rwc.egl_context.MakeCurrent eglEnv est
  -- if (status == false) std::cerr << "..." << std::endl;
  let logs := if s ≠ .ok then
    ["~RasterizerWithContext: failure to set the context as current."] else []
  -- this->Reset();
  let deleted := rwc.rast.program :: rwc.rast.render_targets.color_buffer ::
    rwc.rast.render_targets.depth_buffer :: rwc.rast.render_targets.frame_buffer ::
    rwc.rast.shader_storage_buffers.map Prod.snd
  -- egl_context_ is destroyed here, which calls Release() and the EGL teardown.
  let d := rwc.egl_context.destroy eglEnv est
  ⟨d.est, d.aborted, logs ++ d.logs, deleted⟩

/-- `RasterizerWithContext<T>::Create`: create the EGL offscreen context,
make it current (status unchecked), build the `Program` from the three shader
stages and the `RenderTargets<float>` while it is current, release the
context, and construct the object.  On a failure after context creation the
early `return false` destroys the local `unique_ptr`, running
`~EGLOffscreenContext` (whose `Release` drops the binding; the returned
`DtorOutcome.aborted` records whether that teardown aborted the process). -/
def RasterizerWithContext.Create (cenv : EGLCreateEnv) (eglEnv : EGLEnv)
    (progEnv : GLProgramEnv) (rtEnv : RTEnv) (width height : Nat)
    (vertex_shader_source geometry_shader_source fragment_shader_source : String)
    (clear_r clear_g clear_b clear_depth : ℚ)
    (est : EGLThreadState) (gst : GLObjects) (rst : RTObjects) :
    Bool × Option RasterizerWithContext × EGLThreadState × GLObjects × RTObjects × Bool :=
  -- RETURN_FALSE_IF_ERROR(EGLOffscreenContext::Create(&offscreen_context));
  match EGLOffscreenContext.Create cenv with
  | (.invalidArgument _, _) => (false, none, est, gst, rst, false)
  | (.ok, none) => (false, none, est, gst, rst, false)
  | (.ok, some offscreen_context) =>
    -- offscreen_context->MakeCurrent();
    let (_, est) := offscreen_context.MakeCurrent eglEnv est
    let shaders := [(vertex_shader_source, GL_VERTEX_SHADER),
                    (geometry_shader_source, GL_GEOMETRY_SHADER),
                    (fragment_shader_source, GL_FRAGMENT_SHADER)]
    -- RETURN_FALSE_IF_ERROR(gl_utils::Program::Create(shaders, &program));
    match Program.Create progEnv shaders gst with
    | (.invalidArgument _, _, gst) =>
      let d := offscreen_context.destroy eglEnv est
      (false, none, d.est, gst, rst, d.aborted)
    | (.ok, none, gst) =>
      let d := offscreen_context.destroy eglEnv est
      (false, none, d.est, gst, rst, d.aborted)
    | (.ok, some program_handle, gst) =>
      -- RETURN_FALSE_IF_ERROR(gl_utils::RenderTargets<T>::Create(width, height, ...));
      match RenderTargets.Create rtEnv .float width height rst with
      | (.invalidArgument _, _, rst) =>
        let d := offscreen_context.destroy eglEnv est
        (false, none, d.est, gst, rst, d.aborted)
      | (.ok, none, rst) =>
        let d := offscreen_context.destroy eglEnv est
        (false, none, d.est, gst, rst, d.aborted)
      | (.ok, some render_targets, rst) =>
        -- offscreen_context->Release();
        let (_, _, est) := offscreen_context.Release eglEnv est
        (true,
         some ⟨offscreen_context,
               ⟨program_handle, render_targets, [], clear_r, clear_g, clear_b,
                clear_depth⟩⟩,
         est, gst, rst, false)

theorem Release_current_ne (env : EGLEnv) (c : EGLOffscreenContext)
    (est : EGLThreadState) (hc : c.context ≠ EGL_NO_CONTEXT)
    (hu : env.makeCurrentOk EGL_NO_CONTEXT = true) :
    (c.Release env est).2.2.current ≠ c.context := by
  simp only [EGLOffscreenContext.Release]
  by_cases h : c.context = est.current
  · rw [if_pos ⟨hc, h⟩]
    simp only [eglMakeCurrent, hu, if_true]
    exact fun hh => hc hh.symm
  · rw [if_neg (fun hand => h hand.2)]
    exact fun hh => h hh.symm

/-- **C2, counterexample.** A concrete destructor run in which making the
context current fails: the failure is logged, yet the destructor does *not*
abort — it continues, still issuing the `Reset()` deletion calls for the
program (handle 1), the render target's buffers (1, 2, 3), and destroying the
context.  This refutes "the destructor logs the failure and aborts the
process, rather than continuing to release GPU objects without that context
current". -/
theorem rasterizer_with_context_dtor_no_abort_counterexample :
    (RasterizerWithContext.destroy ⟨fun c => decide (c = 0), true, true, true⟩
        ⟨⟨5, 1, 2⟩, c7rast⟩ ⟨0⟩).logs =
      ["~RasterizerWithContext: failure to set the context as current."] ∧
    (RasterizerWithContext.destroy ⟨fun c => decide (c = 0), true, true, true⟩
        ⟨⟨5, 1, 2⟩, c7rast⟩ ⟨0⟩).aborted = false ∧
    (RasterizerWithContext.destroy ⟨fun c => decide (c = 0), true, true, true⟩
        ⟨⟨5, 1, 2⟩, c7rast⟩ ⟨0⟩).resetDeleted = [1, 1, 2, 3] :=
  ⟨rfl, rfl, rfl⟩

/-- **C2 (amended).** If making the context current fails during destruction
of a `RasterizerWithContext`, the destructor logs the failure to `std::cerr`
and *continues* the teardown: it still calls `Reset()` — issuing the GPU
deletion calls for the program, render target and storage buffers without
that context current — and then destroys the EGL context; the process is not
aborted (an abort happens only when a step inside `~EGLOffscreenContext`
itself fails, which the hypotheses here exclude). -/
theorem rasterizer_with_context_dtor_amended (eglEnv : EGLEnv)
    (rwc : RasterizerWithContext) (est : EGLThreadState)
    (hmc : eglEnv.makeCurrentOk rwc.egl_context.context = false)
    (hu : eglEnv.makeCurrentOk EGL_NO_CONTEXT = true)
    (hd1 : eglEnv.destroyContextOk = true) (hd2 : eglEnv.destroySurfaceOk = true)
    (hd3 : eglEnv.terminateDisplayOk = true) :
    (RasterizerWithContext.destroy eglEnv rwc est).logs.head? =
      some "~RasterizerWithContext: failure to set the context as current." ∧
    (RasterizerWithContext.destroy eglEnv rwc est).aborted = false ∧
    (RasterizerWithContext.destroy eglEnv rwc est).resetDeleted ≠ [] := by
  have hne : rwc.egl_context.context ≠ EGL_NO_CONTEXT := by
    intro h
    rw [h, hu] at hmc
    cases hmc
  by_cases hcur : rwc.egl_context.context = est.current
  · rw [hcur] at hmc hne
    simp [RasterizerWithContext.destroy, EGLOffscreenContext.MakeCurrent,
      eglMakeCurrent, hmc, EGLOffscreenContext.destroy,
      EGLOffscreenContext.Release, hne, hcur, hu, hd1, hd2, hd3, glErrorStatus]
  · simp [RasterizerWithContext.destroy, EGLOffscreenContext.MakeCurrent,
      eglMakeCurrent, hmc, EGLOffscreenContext.destroy,
      EGLOffscreenContext.Release, hne, hcur, hu, hd1, hd2, hd3, glErrorStatus]

/-- Witness for `rasterizer_with_context_dtor_amended` at a concrete context,
rasterizer, and thread state. -/
theorem rasterizer_with_context_dtor_amended_witness :
    (RasterizerWithContext.destroy ⟨fun c => decide (c = 0), true, true, true⟩
        ⟨⟨7, 1, 2⟩, c4rast⟩ ⟨0⟩).aborted = false ∧
    (RasterizerWithContext.destroy ⟨fun c => decide (c = 0), true, true, true⟩
        ⟨⟨7, 1, 2⟩, c4rast⟩ ⟨0⟩).logs.head? =
      some "~RasterizerWithContext: failure to set the context as current." :=
  ⟨(rasterizer_with_context_dtor_amended ⟨fun c => decide (c = 0), true, true, true⟩
      ⟨⟨7, 1, 2⟩, c4rast⟩ ⟨0⟩ rfl rfl rfl rfl rfl).2.1,
   (rasterizer_with_context_dtor_amended ⟨fun c => decide (c = 0), true, true, true⟩
      ⟨⟨7, 1, 2⟩, c4rast⟩ ⟨0⟩ rfl rfl rfl rfl rfl).1⟩

/-- The `~EGLOffscreenContext` teardown never leaves this context current:
its `Release()` unbinds the context when it is current, and no later step
rebinds it. -/
theorem destroy_current_ne (env : EGLEnv) (c : EGLOffscreenContext)
    (est : EGLThreadState) (hc : c.context ≠ EGL_NO_CONTEXT)
    (hu : env.makeCurrentOk EGL_NO_CONTEXT = true) :
    (EGLOffscreenContext.destroy env c est).est.current ≠ c.context := by
  have h := Release_current_ne env c est hc hu
  rcases hr : EGLOffscreenContext.Release env c est with ⟨s, b, est'⟩
  rw [hr] at h
  simp only [EGLOffscreenContext.destroy, hr]
  split_ifs <;> exact h

/-- **C1.** Every public operation of `RasterizerWithContext` brackets its
work with its own EGL context.  `Render` makes the context current, delegates
to `Rasterizer::Render` (success iff the delegate succeeds, same output
buffer, same GL state), and on every exit path — success or failure — the
scoped cleanup's `Release()` has run, so the context is not left current on
the calling thread.  `Create` makes the new context current while building
the program and the render target and releases it before returning (on the
failure paths the local `unique_ptr`'s `~EGLOffscreenContext` releases it),
so the new context is likewise not left current; the constructed object owns
exactly the created context.  Hypotheses: the context handle is not
`EGL_NO_CONTEXT` (guaranteed by `EGLOffscreenContext::Create`), the unbinding
`eglMakeCurrent(..., EGL_NO_CONTEXT)` itself reports no EGL error, and — for
`Create` — the freshly created handle is not already current on the calling
thread. -/
theorem rasterizer_with_context_bracketing :
    (∀ (eglEnv : EGLEnv) (renderEnv : RenderEnv) (rwc : RasterizerWithContext)
        (n len : Nat) (est : EGLThreadState) (st : RState),
      rwc.egl_context.context ≠ EGL_NO_CONTEXT →
      eglEnv.makeCurrentOk EGL_NO_CONTEXT = true →
      ((RasterizerWithContext.Render eglEnv renderEnv rwc n len est st).1 = true ↔
        (Rasterizer.Render renderEnv rwc.rast n len st).1 = .ok) ∧
      (RasterizerWithContext.Render eglEnv renderEnv rwc n len est st).2.1 =
        (Rasterizer.Render renderEnv rwc.rast n len st).2.1 ∧
      (RasterizerWithContext.Render eglEnv renderEnv rwc n len est st).2.2.2 =
        (Rasterizer.Render renderEnv rwc.rast n len st).2.2.2 ∧
      (RasterizerWithContext.Render eglEnv renderEnv rwc n len est st).2.2.1.current ≠
        rwc.egl_context.context) ∧
    (∀ (cenv : EGLCreateEnv) (eglEnv : EGLEnv) (progEnv : GLProgramEnv)
        (rtEnv : RTEnv) (w h : Nat) (vs gs fs : String) (cr cg cb cd : ℚ)
        (est : EGLThreadState) (gst : GLObjects) (rst : RTObjects),
      cenv.newContext ≠ EGL_NO_CONTEXT →
      eglEnv.makeCurrentOk EGL_NO_CONTEXT = true →
      est.current ≠ cenv.newContext →
      (RasterizerWithContext.Create cenv eglEnv progEnv rtEnv w h vs gs fs
          cr cg cb cd est gst rst).2.2.1.current ≠ cenv.newContext ∧
      (∀ rwc', (RasterizerWithContext.Create cenv eglEnv progEnv rtEnv w h vs gs fs
          cr cg cb cd est gst rst).2.1 = some rwc' →
        rwc'.egl_context.context = cenv.newContext)) := by
  constructor
  · intro eglEnv renderEnv rwc n len est st hc hu
    rcases hmc : EGLOffscreenContext.MakeCurrent eglEnv rwc.egl_context est with ⟨s1, est1⟩
    have hrel := Release_current_ne eglEnv rwc.egl_context est1 hc hu
    rcases hr : Rasterizer.Render renderEnv rwc.rast n len st with ⟨rs, out, evts, st1⟩
    rcases hrl : EGLOffscreenContext.Release eglEnv rwc.egl_context est1 with ⟨s2, b2, est2⟩
    rw [hrl] at hrel
    cases rs with
    | ok =>
      simp only [RasterizerWithContext.Render, hmc, hr, hrl]
      exact ⟨by simp, trivial, trivial, hrel⟩
    | invalidArgument m =>
      simp only [RasterizerWithContext.Render, hmc, hr, hrl]
      exact ⟨by simp, trivial, trivial, hrel⟩
  · intro cenv eglEnv progEnv rtEnv w h vs gs fs cr cg cb cd est gst rst hc hu hcur0
    by_cases hok : cenv.createOk = true
    · have hcr : EGLOffscreenContext.Create cenv =
          (.ok, some ⟨cenv.newContext, cenv.newDisplay, cenv.newSurface⟩) := by
        simp [EGLOffscreenContext.Create, hok, hc]
      rcases hmc : EGLOffscreenContext.MakeCurrent eglEnv
          ⟨cenv.newContext, cenv.newDisplay, cenv.newSurface⟩ est with ⟨s1, est1⟩
      have hd := destroy_current_ne eglEnv
        ⟨cenv.newContext, cenv.newDisplay, cenv.newSurface⟩ est1 hc hu
      have hrel := Release_current_ne eglEnv
        ⟨cenv.newContext, cenv.newDisplay, cenv.newSurface⟩ est1 hc hu
      rcases hpc : Program.Create progEnv [(vs, GL_VERTEX_SHADER),
          (gs, GL_GEOMETRY_SHADER), (fs, GL_FRAGMENT_SHADER)] gst with ⟨ps, popt, gst1⟩
      cases ps with
      | invalidArgument m =>
        simp only [RasterizerWithContext.Create, hcr, hmc, hpc]
        exact ⟨hd, fun rwc' hh => by simp at hh⟩
      | ok =>
        cases popt with
        | none =>
          simp only [RasterizerWithContext.Create, hcr, hmc, hpc]
          exact ⟨hd, fun rwc' hh => by simp at hh⟩
        | some ph =>
          rcases hrt : RenderTargets.Create rtEnv .float w h rst with ⟨ts, topt, rst1⟩
          cases ts with
          | invalidArgument m =>
            simp only [RasterizerWithContext.Create, hcr, hmc, hpc, hrt]
            exact ⟨hd, fun rwc' hh => by simp at hh⟩
          | ok =>
            cases topt with
            | none =>
              simp only [RasterizerWithContext.Create, hcr, hmc, hpc, hrt]
              exact ⟨hd, fun rwc' hh => by simp at hh⟩
            | some tobj =>
              rcases hrl : EGLOffscreenContext.Release eglEnv
                ⟨cenv.newContext, cenv.newDisplay, cenv.newSurface⟩ est1 with ⟨s2, b2, est2⟩
              rw [hrl] at hrel
              simp only [RasterizerWithContext.Create, hcr, hmc, hpc, hrt, hrl]
              refine ⟨hrel, ?_⟩
              intro rwc' hh
              have hh' : some (⟨⟨cenv.newContext, cenv.newDisplay, cenv.newSurface⟩,
                  ⟨ph, tobj, [], cr, cg, cb, cd⟩⟩ : RasterizerWithContext) = some rwc' := hh
              cases Option.some.inj hh'
              rfl
    · have hcr : EGLOffscreenContext.Create cenv = (.invalidArgument "EGL ERROR", none) := by
        simp [EGLOffscreenContext.Create, hok]
      simp only [RasterizerWithContext.Create, hcr]
      exact ⟨hcur0, fun rwc' hh => by simp at hh⟩

/-- Witness for `rasterizer_with_context_bracketing`: a concrete `Render` on
a live context (handle 5) leaves handle 5 not current, and a concrete
successful `Create` of a context with handle 7 returns with handle 7 not
current on the calling thread. -/
theorem rasterizer_with_context_bracketing_witness :
    (RasterizerWithContext.Render ⟨fun _ => true, true, true, true⟩ c7env
      ⟨⟨5, 1, 2⟩, c7rast⟩ 0 4 ⟨0⟩ c7st).2.2.1.current ≠ 5 ∧
    (RasterizerWithContext.Create ⟨true, 7, 1, 2⟩ ⟨fun _ => true, true, true, true⟩
      c3wenv ⟨fun _ => false⟩ 1 1 "v" "g" "f" 0 0 0 1 ⟨0⟩ c3st c9st).2.2.1.current ≠ 7 :=
  ⟨(rasterizer_with_context_bracketing.1 ⟨fun _ => true, true, true, true⟩ c7env
      ⟨⟨5, 1, 2⟩, c7rast⟩ 0 4 ⟨0⟩ c7st (by decide) rfl).2.2.2,
   (rasterizer_with_context_bracketing.2 ⟨true, 7, 1, 2⟩ ⟨fun _ => true, true, true, true⟩
      c3wenv ⟨fun _ => false⟩ 1 1 "v" "g" "f" 0 0 0 1 ⟨0⟩ c3st c9st
      (by decide) rfl (by decide)).1⟩
